import Mathlib

/-!
Verification development for the visual SVM playground.

The subject is the client-side classification engine (class SimpleSVMEngine
in the engine source file) together with the boundary-geometry helpers of the
visualization component (SVMVisualization).  Both are deterministic functions
over small in-memory arrays of 2-D labelled points.

The embedding works over ℚ.  JavaScript's transcendental functions
(Math.sqrt, Math.exp, Math.tanh, Math.sin and the constant Math.PI) are
abstracted into a `RealOps` record that every embedded function takes as a
parameter; theorems that depend on an analytic property of one of these
functions state that property as an explicit hypothesis, and concrete
evaluations instantiate `RealOps` with computable rational stand-ins
(`ratOps` below).  Integer-valued expressions such as
Math.floor(length * 0.25) are translated to exact natural-number division.

JavaScript division of 0 by 0 yields NaN while ℚ yields 0; every theorem
below is stated on inputs that keep the two semantics in agreement for the
quantities the theorem mentions (class-diversity hypotheses where needed, or
conclusions about list shapes that no arithmetic value can influence).
-/

namespace SVMPlay

/-- Abstraction of the JavaScript math functions used by the engine and the
visualization: Math.sqrt, Math.exp, Math.tanh, Math.sin and Math.PI. -/
structure RealOps where
  sqrt : ℚ → ℚ
  exp : ℚ → ℚ
  tanh : ℚ → ℚ
  sin : ℚ → ℚ
  pi : ℚ

/-- One labelled sample, interface DataPoint: {x, y, label: 0|1}.
The two-valued numeric label is embedded as a Bool, true standing for
label 1 (the positive class). -/
structure DataPoint where
  x : ℚ
  y : ℚ
  label : Bool
deriving DecidableEq, Repr

/-- A bare 2-D point {x, y}, as produced by the boundary generators. -/
structure Pt2 where
  x : ℚ
  y : ℚ
deriving DecidableEq, Repr

/-- One sample of the background decision-score grid: {x, y, value}. -/
structure BoundaryPoint where
  x : ℚ
  y : ℚ
  value : ℚ
deriving DecidableEq, Repr

/-- The margin curves {upper, lower} of an SVMResult. -/
structure Margins where
  upper : List Pt2
  lower : List Pt2
deriving DecidableEq, Repr

/-- The confusion matrix of an SVMResult. -/
structure ConfusionMatrix where
  truePositive : ℕ
  falsePositive : ℕ
  trueNegative : ℕ
  falseNegative : ℕ
deriving DecidableEq, Repr

/-- The engine's kernel tag: 'linear' | 'polynomial' | 'rbf' | 'sigmoid'. -/
inductive Kernel where
  | linear
  | polynomial
  | rbf
  | sigmoid
deriving DecidableEq, Repr

/-- Result record of SimpleSVMEngine.train (interface SVMResult). -/
structure SVMResult where
  supportVectors : List ℕ
  accuracy : ℚ
  precision : ℚ
  «recall» : ℚ
  confusionMatrix : ConfusionMatrix
  boundaryPoints : List BoundaryPoint
  margins : Margins

/-- Math.min over a spread array, for the nonempty lists the code applies it
to.  (JavaScript returns Infinity on an empty array; no theorem below
evaluates this on an empty list.) -/
def listMin : List ℚ → ℚ
  | [] => 0
  | h :: t => t.foldl min h

/-- Math.max over a spread array, for the nonempty lists the code applies it
to. -/
def listMax : List ℚ → ℚ
  | [] => 0
  | h :: t => t.foldl max h

/-- Positive-class subset: this.data.filter(d => d.label === 1). -/
def positives (data : List DataPoint) : List DataPoint :=
  data.filter fun d => d.label

/-- Negative-class subset: this.data.filter(d => d.label === 0). -/
def negatives (data : List DataPoint) : List DataPoint :=
  data.filter fun d => !d.label

/-- SimpleSVMEngine.centerOfMass: componentwise mean of a point list, with
label 0.  (On an empty list JavaScript produces NaN coordinates; in ℚ the
division yields 0.  All theorems below that inspect coordinate values assume
the relevant class is nonempty.) -/
def centerOfMass (points : List DataPoint) : DataPoint :=
  { x := (points.map (fun p => p.x)).sum / (points.length : ℚ)
    y := (points.map (fun p => p.y)).sum / (points.length : ℚ)
    label := false }

/-- SimpleSVMEngine.distance: Euclidean distance via Math.sqrt. -/
def distance (ops : RealOps) (p q : DataPoint) : ℚ :=
  ops.sqrt ((p.x - q.x) * (p.x - q.x) + (p.y - q.y) * (p.y - q.y))

/-- SimpleSVMEngine.kernelDistance: the kernel-specific affinity between two
points.  The polynomial degree is a natural number (the UI offers 1–3), so
Math.pow becomes an exact rational power. -/
def kernelDistance (ops : RealOps) (kernel : Kernel) (gamma : ℚ)
    (degree : ℕ) (p q : DataPoint) : ℚ :=
  let dx := p.x - q.x
  let dy := p.y - q.y
  match kernel with
  | .linear => ops.sqrt (dx * dx + dy * dy)
  | .polynomial => (dx * dx + dy * dy + 1) ^ degree
  | .rbf => ops.exp (-gamma * (dx * dx + dy * dy))
  | .sigmoid => ops.tanh (gamma * (dx * dx + dy * dy) + 1)

/-- SimpleSVMEngine.decisionFunction: kernel affinities to the two class
centroids, weighted by the C-dependent factor 1 + tanh(C*0.5)*0.5. -/
def decisionFunction (ops : RealOps) (kernel : Kernel) (gamma : ℚ)
    (degree : ℕ) (C : ℚ) (point posCenter negCenter : DataPoint) : ℚ :=
  let distToPos := kernelDistance ops kernel gamma degree point posCenter
  let distToNeg := kernelDistance ops kernel gamma degree point negCenter
  let weight := ops.tanh (C * (1 / 2))
  (distToNeg - distToPos) * (1 + weight * (1 / 2))

/-- SimpleSVMEngine.predict: label 1 when the decision score is >= 0,
else 0. -/
def predict (ops : RealOps) (data : List DataPoint) (C gamma : ℚ)
    (kernel : Kernel) (degree : ℕ) (point : DataPoint) : ℕ :=
  let posCenter := centerOfMass (positives data)
  let negCenter := centerOfMass (negatives data)
  if 0 ≤ decisionFunction ops kernel gamma degree C point posCenter negCenter
  then 1 else 0

/-- Metrics part of SimpleSVMEngine.calculateMetrics's return value. -/
structure MetricsResult where
  accuracy : ℚ
  precision : ℚ
  «recall» : ℚ
  confusionMatrix : ConfusionMatrix

/-- SimpleSVMEngine.calculateMetrics.  The forEach walks data and
predictions in lockstep, embedded as a zip.  The JavaScript expressions
tp/(tp+fp) || 0 and tp/(tp+fn) || 0 coerce the NaN produced by a zero
denominator (and only then) to 0, embedded as the explicit zero-denominator
case split. -/
def calculateMetrics (data : List DataPoint) (predictions : List ℕ) :
    MetricsResult :=
  let pairs := data.zip predictions
  let tp := (pairs.filter fun dp => dp.2 == 1 && dp.1.label).length
  let fp := (pairs.filter fun dp => dp.2 == 1 && !dp.1.label).length
  let tn := (pairs.filter fun dp => dp.2 == 0 && !dp.1.label).length
  let fn := (pairs.filter fun dp => dp.2 == 0 && dp.1.label).length
  { accuracy := ((tp : ℚ) + (tn : ℚ)) / (data.length : ℚ)
    precision := if tp + fp = 0 then 0 else (tp : ℚ) / ((tp : ℚ) + (fp : ℚ))
    «recall» := if tp + fn = 0 then 0 else (tp : ℚ) / ((tp : ℚ) + (fn : ℚ))
    confusionMatrix :=
      { truePositive := tp, falsePositive := fp
        trueNegative := tn, falseNegative := fn } }

/-- SimpleSVMEngine.generateBoundary: the decision score sampled on the
(resolution+1) × (resolution+1) grid over the data's bounding box, with
resolution = 40; the two nested inclusive for-loops become a flatMap over
List.range 41. -/
def generateBoundary (ops : RealOps) (data : List DataPoint) (C gamma : ℚ)
    (kernel : Kernel) (degree : ℕ) : List BoundaryPoint :=
  let xMin := listMin (data.map fun d => d.x)
  let xMax := listMax (data.map fun d => d.x)
  let yMin := listMin (data.map fun d => d.y)
  let yMax := listMax (data.map fun d => d.y)
  let resolution : ℕ := 40
  let posCenter := centerOfMass (positives data)
  let negCenter := centerOfMass (negatives data)
  (List.range (resolution + 1)).flatMap fun (i : ℕ) =>
    (List.range (resolution + 1)).map fun (j : ℕ) =>
      let x := xMin + ((i : ℚ) / (resolution : ℚ)) * (xMax - xMin)
      let y := yMin + ((j : ℚ) / (resolution : ℚ)) * (yMax - yMin)
      { x := x, y := y
        value := decisionFunction ops kernel gamma degree C
          { x := x, y := y, label := false } posCenter negCenter }

/-- Record produced per point by the support-vector rankings of the linear
and polynomial branches of SimpleSVMEngine.findSupportVectors:
{point, idx, distance} (the polynomial branch's distanceToBoundary is the
same field). -/
structure SVRec where
  point : DataPoint
  idx : ℕ
  distance : ℚ
deriving DecidableEq, Repr

/-- Default SVRec for the always-in-bounds array accesses of the source. -/
def dfltSVRec : SVRec :=
  { point := { x := 0, y := 0, label := false }, idx := 0, distance := 0 }

/-- Record produced per point by the rbf and sigmoid branches of
SimpleSVMEngine.findSupportVectors: {point, idx, score, decisionValue}. -/
structure SVScoreRec where
  point : DataPoint
  idx : ℕ
  score : ℚ
  decisionValue : ℚ
deriving DecidableEq, Repr

/-- Default SVScoreRec for the always-in-bounds array accesses of the
source. -/
def dfltSVScoreRec : SVScoreRec :=
  { point := { x := 0, y := 0, label := false }, idx := 0, score := 0
    decisionValue := 0 }

/-- Per-point records of the linear branch of
SimpleSVMEngine.findSupportVectors: perpendicular distance of every point
to the centroid-blend separating line.  These rational distances agree
with the JavaScript values exactly when both classes are nonempty and the
class x-means differ; when the slope's denominator posStats.x - negStats.x
is zero JavaScript produces an Infinity or NaN slope and every distance is
NaN, a path linearSVSelect makes explicit with its leading guard.
Math.floor(n·0.25) and Math.floor(n·0.15) are exact at the integer inputs
the code feeds them, embedded as n·25/100 and n·15/100 in ℕ. -/
def linearSVRecords (ops : RealOps)
    (data positive negative : List DataPoint) : List SVRec :=
  let posStats : Pt2 :=
    { x := (positive.map (fun p => p.x)).sum / (positive.length : ℚ)
      y := (positive.map (fun p => p.y)).sum / (positive.length : ℚ) }
  let negStats : Pt2 :=
    { x := (negative.map (fun p => p.x)).sum / (negative.length : ℚ)
      y := (negative.map (fun p => p.y)).sum / (negative.length : ℚ) }
  let slope := -(posStats.y - negStats.y) / (posStats.x - negStats.x)
  let weight : ℚ := 6 / 10
  let midPoint : Pt2 :=
    { x := negStats.x + weight * (posStats.x - negStats.x)
      y := negStats.y + weight * (posStats.y - negStats.y) }
  let intercept := midPoint.y - slope * midPoint.x
  data.enum.map fun ip =>
    ({ point := ip.2, idx := ip.1
       distance := |slope * ip.2.x + (-1) * ip.2.y + intercept| /
         ops.sqrt (slope * slope + (-1) * (-1)) } : SVRec)

/-- Linear branch of SimpleSVMEngine.findSupportVectors: ascending stable
sort of the perpendicular distances (Array.prototype.sort is stable; the
embedding uses the stable insertionSort, which computes the same list),
25th-percentile distance cutoff, then at most min(12, floor(0.15·n))
indices.  The leading guard translates the JavaScript float semantics of
the degenerate geometry: with an empty class or equal class x-means the
slope is NaN or ±Infinity, every record distance is NaN simultaneously,
the NaN-rejecting percentile filter keeps nothing, and the branch returns
the empty selection whatever order the NaN comparator leaves the array
in. -/
def linearSVSelect (ops : RealOps) (data positive negative : List DataPoint) :
    List ℕ :=
  if positive = [] ∨ negative = [] ∨
      (positive.map (fun p => p.x)).sum / (positive.length : ℚ) =
        (negative.map (fun p => p.x)).sum / (negative.length : ℚ) then []
  else
    let sorted := (linearSVRecords ops data positive negative).insertionSort
      fun a b => a.distance ≤ b.distance
    let maxDistance := (sorted.getD (data.length * 25 / 100) dfltSVRec).distance
    ((sorted.filter fun p => p.distance ≤ maxDistance).take
      (min 12 (data.length * 15 / 100))).map fun p => p.idx

/-- Per-point records of the polynomial branch of
SimpleSVMEngine.findSupportVectors: distance of every point to the
degree-dependent synthetic boundary curve.  These rational distances agree
with the JavaScript values exactly when both classes are nonempty and the
branch's divisions are nondegenerate (class x-means differ for degree 1;
the data's x-range is nonzero for degrees 2 and 3); a zero denominator
makes every JavaScript distanceToBoundary NaN simultaneously, a path
polySVSelect makes explicit with its leading guard. -/
def polySVRecords (ops : RealOps) (data positive negative : List DataPoint)
    (degree : ℕ) : List SVRec :=
  let posCenter : Pt2 :=
    { x := (positive.map (fun p => p.x)).sum / (positive.length : ℚ)
      y := (positive.map (fun p => p.y)).sum / (positive.length : ℚ) }
  let negCenter : Pt2 :=
    { x := (negative.map (fun p => p.x)).sum / (negative.length : ℚ)
      y := (negative.map (fun p => p.y)).sum / (negative.length : ℚ) }
  data.enum.map fun ip =>
    let point := ip.2
    let distanceToBoundary :=
      if degree = 1 then
        let minBlueY := listMin (positive.map fun p => p.y)
        let maxOrangeY := listMax (negative.map fun p => p.y)
        let slope := (posCenter.y - negCenter.y) / (posCenter.x - negCenter.x)
        let separatingX := (posCenter.x + negCenter.x) / 2
        let margin := (minBlueY - maxOrangeY) * (1 / 10)
        let separatingY := maxOrangeY + (minBlueY - maxOrangeY) / 2 + margin
        let intercept := separatingY - slope * separatingX
        |slope * point.x + (-1) * point.y + intercept| /
          ops.sqrt (slope * slope + (-1) * (-1))
      else if degree = 2 then
        let midX := (posCenter.x + negCenter.x) / 2
        let midY := (posCenter.y + negCenter.y) / 2
        let xRange := listMax (data.map fun d => d.x) -
          listMin (data.map fun d => d.x)
        let yRange := listMax (data.map fun d => d.y) -
          listMin (data.map fun d => d.y)
        let amplitude := yRange * (2 / 10)
        let offset := (point.x - midX) / (xRange * (1 / 2))
        let expectedY := midY + amplitude * ops.sin (offset * ops.pi) +
          (point.x - midX) * (2 / 10)
        |point.y - expectedY|
      else
        let midX := (posCenter.x + negCenter.x) / 2
        let midY := (posCenter.y + negCenter.y) / 2
        let xRange := listMax (data.map fun d => d.x) -
          listMin (data.map fun d => d.x)
        let yRange := listMax (data.map fun d => d.y) -
          listMin (data.map fun d => d.y)
        let amplitude := yRange * (25 / 100)
        let offset := (point.x - midX) / (xRange * (1 / 2))
        let expectedY := midY + amplitude * ops.sin (offset * ops.pi * 2) +
          amplitude * (3 / 10) * ops.sin (offset * ops.pi * 4) +
          (point.x - midX) * (3 / 10)
        |point.y - expectedY|
    ({ point := point, idx := ip.1, distance := distanceToBoundary } : SVRec)

/-- Polynomial branch of SimpleSVMEngine.findSupportVectors: ascending
stable sort of the curve distances, 20th-percentile cutoff, then at most
min(12, floor(0.15·n)) indices.  As in linearSVSelect, the leading guard
translates the JavaScript float semantics of the degenerate divisions: an
empty class, equal class x-means at degree 1, or a zero x-range at degrees
2 and 3 make every distanceToBoundary NaN, the percentile filter keeps
nothing, and the branch returns the empty selection. -/
def polySVSelect (ops : RealOps) (data positive negative : List DataPoint)
    (degree : ℕ) : List ℕ :=
  if positive = [] ∨ negative = [] ∨
      (degree = 1 ∧
        (positive.map (fun p => p.x)).sum / (positive.length : ℚ) =
          (negative.map (fun p => p.x)).sum / (negative.length : ℚ)) ∨
      (degree ≠ 1 ∧
        listMax (data.map fun d => d.x) - listMin (data.map fun d => d.x) =
          0) then []
  else
    let sorted := (polySVRecords ops data positive negative degree).insertionSort
      fun a b => a.distance ≤ b.distance
    let maxDistance := (sorted.getD (data.length * 20 / 100) dfltSVRec).distance
    ((sorted.filter fun p => p.distance ≤ maxDistance).take
      (min 12 (data.length * 15 / 100))).map fun p => p.idx

/-- Rbf branch of SimpleSVMEngine.findSupportVectors: per-point Gaussian
class influences (averaged over each class), C-adjustment 1 + (C-1)·0.2 on
the positive influence, rank by |decision value| ascending; threshold
max(0.3, score at sorted index min(10, n-1)) — the source's
`?.score || 0.3` coerces only a 0 score, which the max already sends to
0.3; keep at most min(20, floor(0.25·n)) qualifying points, and if fewer
than 8 qualify fall back to the min(20, floor(0.3·n)) closest. -/
def rbfSVRecords (ops : RealOps) (data positive negative : List DataPoint)
    (C gamma : ℚ) : List SVScoreRec :=
  data.enum.map fun ip =>
    let point := ip.2
    let posInfluence :=
      (positive.map fun pos =>
        ops.exp (-gamma * ((point.x - pos.x) ^ 2 + (point.y - pos.y) ^ 2))).sum /
        (positive.length : ℚ)
    let negInfluence :=
      (negative.map fun neg =>
        ops.exp (-gamma * ((point.x - neg.x) ^ 2 + (point.y - neg.y) ^ 2))).sum /
        (negative.length : ℚ)
    let cAdjustment := 1 + (C - 1) * (2 / 10)
    let decisionValue := posInfluence * cAdjustment - negInfluence
    ({ point := point, idx := ip.1, score := |decisionValue|
       decisionValue := decisionValue } : SVScoreRec)

def rbfSVSelect (ops : RealOps) (data positive negative : List DataPoint)
    (C gamma : ℚ) : List ℕ :=
  let sorted := (rbfSVRecords ops data positive negative C gamma).insertionSort
    fun a b => a.score ≤ b.score
  let threshold :=
    max (3 / 10) (sorted.getD (min 10 (data.length - 1)) dfltSVScoreRec).score
  let boundaryPoints :=
    (sorted.filter fun p => p.score ≤ threshold).take
      (min 20 (data.length * 25 / 100))
  if boundaryPoints.length < 8 then
    (sorted.take (min 20 (data.length * 30 / 100))).map fun p => p.idx
  else
    boundaryPoints.map fun p => p.idx

/-- Sigmoid branch of SimpleSVMEngine.findSupportVectors.  Note that the
per-point influences here are tanh(gamma · (p·q) + 1) of the DOT PRODUCT
p·q with each class point — not of the squared euclidean distance that
SimpleSVMEngine.kernelDistance uses for the sigmoid kernel.  C-adjustment
is 1 + (C-1)·0.15; the ranking/threshold/fallback pipeline is the same as
the rbf branch. -/
def sigmoidSVRecords (ops : RealOps)
    (data positive negative : List DataPoint) (C gamma : ℚ) :
    List SVScoreRec :=
  data.enum.map fun ip =>
    let point := ip.2
    let posInfluence :=
      (positive.map fun pos =>
        ops.tanh (gamma * (point.x * pos.x + point.y * pos.y) + 1)).sum /
        (positive.length : ℚ)
    let negInfluence :=
      (negative.map fun neg =>
        ops.tanh (gamma * (point.x * neg.x + point.y * neg.y) + 1)).sum /
        (negative.length : ℚ)
    let cAdjustment := 1 + (C - 1) * (15 / 100)
    let decisionValue := posInfluence * cAdjustment - negInfluence
    ({ point := point, idx := ip.1, score := |decisionValue|
       decisionValue := decisionValue } : SVScoreRec)

def sigmoidSVSelect (ops : RealOps) (data positive negative : List DataPoint)
    (C gamma : ℚ) : List ℕ :=
  let sorted := (sigmoidSVRecords ops data positive negative C gamma).insertionSort
    fun a b => a.score ≤ b.score
  let threshold :=
    max (3 / 10) (sorted.getD (min 10 (data.length - 1)) dfltSVScoreRec).score
  let boundaryPoints :=
    (sorted.filter fun p => p.score ≤ threshold).take
      (min 20 (data.length * 25 / 100))
  if boundaryPoints.length < 8 then
    (sorted.take (min 20 (data.length * 30 / 100))).map fun p => p.idx
  else
    boundaryPoints.map fun p => p.idx

/-- SimpleSVMEngine.findSupportVectors.  The four kernel tags each return
from their own if-branch; the centroid-ratio code after the four branches
is unreachable for the four-valued kernel type, so the embedding is a total
match over the four branches. -/
def findSupportVectors (ops : RealOps) (data positive negative : List DataPoint)
    (C gamma : ℚ) (kernel : Kernel) (degree : ℕ) : List ℕ :=
  match kernel with
  | .linear => linearSVSelect ops data positive negative
  | .polynomial => polySVSelect ops data positive negative degree
  | .rbf => rbfSVSelect ops data positive negative C gamma
  | .sigmoid => sigmoidSVSelect ops data positive negative C gamma

/-- Margin half-width used by SimpleSVMEngine.generateMargins:
marginWidth = 1.0 / (C + 0.5) (comment in source: larger C, smaller
margin). -/
def marginWidthEngine (C : ℚ) : ℚ :=
  1 / (C + 1 / 2)

/-- SimpleSVMEngine.generateMargins: vertical offsets of the near-zero
boundary samples, sorted by x, at width marginWidthEngine C scaled by 5% of
the y-range. -/
def generateMargins (data : List DataPoint) (C : ℚ)
    (boundaryPoints : List BoundaryPoint) : Margins :=
  let boundary :=
    (boundaryPoints.filter fun p => |p.value| < 1 / 2).insertionSort
      fun a b => a.x ≤ b.x
  let marginWidth := marginWidthEngine C
  let yRange := listMax (data.map fun d => d.y) - listMin (data.map fun d => d.y)
  { upper := boundary.map fun p =>
      { x := p.x, y := p.y + marginWidth * yRange * (5 / 100) }
    lower := boundary.map fun p =>
      { x := p.x, y := p.y - marginWidth * yRange * (5 / 100) } }

/-- SimpleSVMEngine.train: class split, support vectors, per-point
predictions, metrics, background grid and margins.  The file contains no
throw and no error type: train always completes and returns an SVMResult,
whatever the label distribution of its input. -/
def train (ops : RealOps) (data : List DataPoint) (C gamma : ℚ)
    (kernel : Kernel) (degree : ℕ) : SVMResult :=
  let positive := data.filter fun d => d.label
  let negative := data.filter fun d => !d.label
  let supportVectors := findSupportVectors ops data positive negative C gamma
    kernel degree
  let predictions := data.map (predict ops data C gamma kernel degree)
  let metrics := calculateMetrics data predictions
  let boundaryPoints := generateBoundary ops data C gamma kernel degree
  let margins := generateMargins data C boundaryPoints
  { supportVectors := supportVectors
    accuracy := metrics.accuracy
    precision := metrics.precision
    «recall» := metrics.recall
    confusionMatrix := metrics.confusionMatrix
    boundaryPoints := boundaryPoints
    margins := margins }

/-- Margin half-width of SVMVisualization.getMarginLines on the generic
(non-loan) path: baseMargin / (C + 0.1) with baseMargin = 8% of the data's
y-range. -/
def marginLineWidth (data : List DataPoint) (C : ℚ) : ℚ :=
  let yRange := listMax (data.map fun d => d.y) - listMin (data.map fun d => d.y)
  let baseMargin := yRange * (8 / 100)
  baseMargin / (C + 1 / 10)

/-- computeBounds of the loan branch of
SVMVisualization.getDecisionBoundaryLine: the feasible intercept interval
(lower, upper) for perpendicular margin m, from the projections
a·x + b·y of the two classes. -/
def loanComputeBounds (posProj negProj : List ℚ) (norm m : ℚ) : ℚ × ℚ :=
  (listMax (posProj.map fun v => m * norm - v),
   listMin (negProj.map fun v => -m * norm - v))

/-- The while-loop of the loan branch: while the interval is infeasible and
fewer than 10 attempts have been made, multiply the margin by 0.8 and
recompute the bounds.  The attempts counter becomes the structural fuel,
started at 10. -/
def loanLoop (posProj negProj : List ℚ) (norm : ℚ) :
    ℕ → ℚ → ℚ → ℚ → ℚ × ℚ × ℚ
  | 0, m, lower, upper => (m, lower, upper)
  | fuel + 1, m, lower, upper =>
    if upper < lower then
      let m2 := m * (8 / 10)
      let bounds := loanComputeBounds posProj negProj norm m2
      loanLoop posProj negProj norm fuel m2 bounds.1 bounds.2
    else (m, lower, upper)

/-- Output of the loan branch of SVMVisualization.getDecisionBoundaryLine:
the emitted polyline together with the internal quantities the margin
drawing reuses (the enforced margin m is stashed on the function object in
the source; here it is a field). -/
structure LoanBoundary where
  line : List Pt2
  slope : ℚ
  norm : ℚ
  margin : ℚ
  lower : ℚ
  upper : ℚ
  cChosen : ℚ

/-- Slope of the loan boundary: blend of the class means with the
Math.max(1, length) denominators and the 1e-6 clamp of the source. -/
def loanSlope (posData negData : List DataPoint) : ℚ :=
  let posStatsX := (posData.map (fun p => p.x)).sum / (max 1 posData.length : ℚ)
  let posStatsY := (posData.map (fun p => p.y)).sum / (max 1 posData.length : ℚ)
  let negStatsX := (negData.map (fun p => p.x)).sum / (max 1 negData.length : ℚ)
  let negStatsY := (negData.map (fun p => p.y)).sum / (max 1 negData.length : ℚ)
  let slope := -(posStatsY - negStatsY) / max (1 / 1000000) (posStatsX - negStatsX)
  slope

/-- Initial candidate margin of the loan branch: baseMargin · cFactor + ε
with baseMargin = 3% and ε = 0.1% of the y-range, cFactor = 1 + 2/max(0.1,C). -/
def loanM0 (data : List DataPoint) (C : ℚ) : ℚ :=
  let yMin := listMin (data.map fun d => d.y)
  let yMax := listMax (data.map fun d => d.y)
  let yRange := yMax - yMin
  let baseMargin := yRange * (3 / 100)
  let epsilon := yRange * (1 / 1000)
  let cFactor := 1 + (1 / max (1 / 10) C) * 2
  baseMargin * cFactor + epsilon

/-- The margin search of the loan branch: initial bounds for loanM0, then
the 0.8-backoff loop with at most 10 attempts; returns (m, lower, upper). -/
def loanSearch (ops : RealOps) (data posData negData : List DataPoint)
    (C : ℚ) : ℚ × ℚ × ℚ :=
  let slope := loanSlope posData negData
  let a := -slope
  let b : ℚ := 1
  let norm := ops.sqrt (a * a + b * b)
  let m0 := loanM0 data C
  let posProj := posData.map fun p => a * p.x + b * p.y
  let negProj := negData.map fun p => a * p.x + b * p.y
  let bounds0 := loanComputeBounds posProj negProj norm m0
  loanLoop posProj negProj norm 10 m0 bounds0.1 bounds0.2

/-- The isLoan branch of SVMVisualization.getDecisionBoundaryLine: slope
from the class-mean blend (denominator clamped at 1e-6), initial
perpendicular margin from the y-range and C, feasible-intercept search by
0.8-backoff (at most 10 attempts), midpoint intercept, and 51 emitted
x-samples.  posData/negData are the boundary point sets the component
passes in; xMin..yMax come from the full dataset. -/
def getDecisionBoundaryLineLoan (ops : RealOps)
    (data posData negData : List DataPoint) (C : ℚ) : LoanBoundary :=
  let xMin := listMin (data.map fun d => d.x)
  let xMax := listMax (data.map fun d => d.x)
  let slope := loanSlope posData negData
  let norm := ops.sqrt ((-slope) * (-slope) + 1 * 1)
  let final := loanSearch ops data posData negData C
  let cChosen := (final.2.1 + final.2.2) / 2
  let adjustedIntercept := -cChosen
  { line := (List.range 51).map fun (k : ℕ) =>
      let x := xMin + (k : ℚ) * ((xMax - xMin) / 50)
      { x := x, y := slope * x + adjustedIntercept }
    slope := slope, norm := norm, margin := final.1
    lower := final.2.1, upper := final.2.2, cChosen := cChosen }

/-- A point lies strictly inside the margin band of the loan boundary: its
perpendicular distance to the line a·x + b·y + c = 0 (a = -slope, b = 1) is
strictly below the enforced margin m.  Stated squared, so that it is exact
over ℚ: (a·x + b·y + c)² < m² · (a² + b²). -/
def loanCrossesBand (slope cChosen m : ℚ) (p : DataPoint) : Prop :=
  ((-slope) * p.x + 1 * p.y + cChosen) ^ 2 < m ^ 2 * ((-slope) * (-slope) + 1 * 1)

/-- Cross product helper of the monotone-chain hull in
SVMVisualization.getRBFDecisionBoundary / getRBFNegativeBoundary. -/
def cross (o a b : Pt2) : ℚ :=
  (a.x - o.x) * (b.y - o.y) - (a.y - o.y) * (b.x - o.x)

/-- Default Pt2 for the always-in-bounds array accesses of the source. -/
def dfltPt2 : Pt2 := { x := 0, y := 0 }

/-- One push of the monotone-chain loop: pop while the top two stack entries
and the new point make a non-left turn (cross ≤ 0), then push.  The stack is
kept top-first. -/
def hullPush (p : Pt2) : List Pt2 → List Pt2
  | t :: s :: rest =>
    if cross s t p ≤ 0 then hullPush p (s :: rest) else p :: t :: s :: rest
  | l => p :: l

/-- One half (lower or upper) of the monotone-chain hull: fold hullPush over
the point sequence and restore left-to-right order. -/
def hullHalf (pts : List Pt2) : List Pt2 :=
  (pts.foldl (fun st p => hullPush p st) []).reverse

/-- Monotone-chain convex hull exactly as in the source: sort by x then y
(the JavaScript comparator a.x === b.x ? a.y - b.y : a.x - b.x), build the
lower chain, build the upper chain over the reversed order, and concatenate
both chains without their last points. -/
def monotoneChainHull (pts : List Pt2) : List Pt2 :=
  let sorted := pts.insertionSort fun a b =>
    a.x < b.x ∨ (a.x = b.x ∧ a.y ≤ b.y)
  let lower := hullHalf sorted
  let upper := hullHalf sorted.reverse
  lower.dropLast ++ upper.dropLast

/-- The 2% outward inflation from the hull centroid (inflate = 1.02). -/
def inflateFromCentroid (hull : List Pt2) : List Pt2 :=
  let centroidX := (hull.map (fun p => p.x)).sum / (hull.length : ℚ)
  let centroidY := (hull.map (fun p => p.y)).sum / (hull.length : ℚ)
  hull.map fun p =>
    { x := centroidX + (p.x - centroidX) * (102 / 100)
      y := centroidY + (p.y - centroidY) * (102 / 100) }

/-- One Chaikin corner-cutting pass: for every edge (cyclically) emit the
1/4 and 3/4 points. -/
def chaikinPass (poly : List Pt2) : List Pt2 :=
  (List.range poly.length).flatMap fun i =>
    let p0 := poly.getD i dfltPt2
    let p1 := poly.getD ((i + 1) % poly.length) dfltPt2
    [{ x := (75 / 100) * p0.x + (25 / 100) * p1.x
       y := (75 / 100) * p0.y + (25 / 100) * p1.y },
     { x := (25 / 100) * p0.x + (75 / 100) * p1.x
       y := (25 / 100) * p0.y + (75 / 100) * p1.y }]

/-- SVMVisualization.getRBFDecisionBoundary: empty unless the kernel is
rbf; below 3 points the class points are returned unchanged; otherwise
monotone-chain hull, 2% inflation, two Chaikin passes. -/
def getRBFDecisionBoundary (kernel : Kernel)
    (positiveData : List DataPoint) : List Pt2 :=
  if kernel ≠ Kernel.rbf then [] else
  let pts := positiveData.map fun p => ({ x := p.x, y := p.y } : Pt2)
  if pts.length < 3 then pts
  else chaikinPass (chaikinPass (inflateFromCentroid (monotoneChainHull pts)))

/-- SVMVisualization.getRBFNegativeBoundary: the same construction applied
to the negative class. -/
def getRBFNegativeBoundary (kernel : Kernel)
    (negativeData : List DataPoint) : List Pt2 :=
  if kernel ≠ Kernel.rbf then [] else
  let pts := negativeData.map fun p => ({ x := p.x, y := p.y } : Pt2)
  if pts.length < 3 then pts
  else chaikinPass (chaikinPass (inflateFromCentroid (monotoneChainHull pts)))

/-- Fuel-driven Newton iteration for the integer square root, written with
structural recursion so that closed instances reduce inside the kernel. -/
def natSqrtFuel : ℕ → ℕ → ℕ → ℕ
  | 0, _, guess => guess
  | fuel + 1, n, guess =>
    let next := (guess + n / guess) / 2
    if next < guess then natSqrtFuel fuel n next else guess

/-- Floor integer square root via natSqrtFuel (128 Newton steps are ample
for every number below 2^128). -/
def intSqrt (n : ℕ) : ℕ :=
  if n ≤ 1 then n else natSqrtFuel 128 n (n / 2 + 1)

/-- Computable rational stand-in for Math.sqrt: the floor square root
computed on the numerator times denominator.  Exact whenever the input is
the square of a rational whose square root has the same denominator (for
example ratSqrt (25/16) = 5/4, ratSqrt 1 = 1); always nonnegative. -/
def ratSqrt (q : ℚ) : ℚ :=
  if q ≤ 0 then 0 else ((intSqrt (q.num.toNat * q.den) : ℚ) / (q.den : ℚ))

/-- Computable rational stand-in for Math.tanh: the order-(3,2) Padé
approximant x(15+x²)/(15+6x²), clamped to [-1, 1].  Strictly increasing on
the argument ranges the theorems below evaluate it at, odd, and bounded by
1 in absolute value like the real tanh. -/
def ratTanh (x : ℚ) : ℚ :=
  max (-1) (min 1 (x * (15 + x ^ 2) / (15 + 6 * x ^ 2)))

/-- Computable rational stand-in for Math.exp: positive and increasing; no
theorem below depends on its values beyond that. -/
def ratExp (x : ℚ) : ℚ :=
  if x < 0 then 1 / (1 - x) else 1 + x

/-- Computable rational stand-in for Math.sin; no theorem below depends on
its values. -/
def ratSin (x : ℚ) : ℚ := x

/-- Concrete RealOps instantiation used for closed evaluations. -/
def ratOps : RealOps :=
  { sqrt := ratSqrt, exp := ratExp, tanh := ratTanh, sin := ratSin
    pi := 355 / 113 }

instance (slope cChosen m : ℚ) (p : DataPoint) :
    Decidable (loanCrossesBand slope cChosen m p) := by
  unfold loanCrossesBand
  infer_instance

/-- Modelled from the spec: the pairwise affinity table of the
specification's classify operation — Linear: Euclidean distance;
Polynomial: (euclidean_sq(p,q) + 1)^degree; RadialBasis:
exp(-gamma·euclidean_sq(p,q)); Sigmoid: tanh(gamma·euclidean_sq(p,q) + 1).
Written from the spec's wording, to be compared with kernelDistance. -/
def affinitySpec (ops : RealOps) (kernel : Kernel) (gamma : ℚ) (degree : ℕ)
    (p q : DataPoint) : ℚ :=
  let sq := (p.x - q.x) * (p.x - q.x) + (p.y - q.y) * (p.y - q.y)
  match kernel with
  | .linear => ops.sqrt sq
  | .polynomial => (sq + 1) ^ degree
  | .rbf => ops.exp (-gamma * sq)
  | .sigmoid => ops.tanh (gamma * sq + 1)

/-- Modelled from the spec: the decision score of the specification,
(k(p, negCentroid) - k(p, posCentroid)) · (1 + tanh(C·0.5)·0.5), with k the
spec's affinity table and the centroids the per-class means.  Written from
the spec's wording, to be compared with the engine's predict path. -/
def decisionScoreSpec (ops : RealOps) (data : List DataPoint) (C gamma : ℚ)
    (kernel : Kernel) (degree : ℕ) (p : DataPoint) : ℚ :=
  let posCentroid := centerOfMass (positives data)
  let negCentroid := centerOfMass (negatives data)
  (affinitySpec ops kernel gamma degree p negCentroid -
    affinitySpec ops kernel gamma degree p posCentroid) *
    (1 + ops.tanh (C * (1 / 2)) * (1 / 2))

/-- Modelled from the claim's words for the sigmoid support-vector
selection: identical to the source's pipeline except that the per-point
influence is tanh(gamma · euclidean_sq(p,q) + 1) — the kernel's own
affinity of the squared euclidean distance — instead of the source's
tanh(gamma · (p·q) + 1) of the dot product.  To be compared with
sigmoidSVSelect. -/
def sigmoidSelectionClaim (ops : RealOps)
    (data positive negative : List DataPoint) (C gamma : ℚ) : List ℕ :=
  let pointsWithScore := data.enum.map fun ip =>
    let point := ip.2
    let posInfluence :=
      (positive.map fun pos =>
        ops.tanh (gamma * ((point.x - pos.x) * (point.x - pos.x) +
          (point.y - pos.y) * (point.y - pos.y)) + 1)).sum /
        (positive.length : ℚ)
    let negInfluence :=
      (negative.map fun neg =>
        ops.tanh (gamma * ((point.x - neg.x) * (point.x - neg.x) +
          (point.y - neg.y) * (point.y - neg.y)) + 1)).sum /
        (negative.length : ℚ)
    let cAdjustment := 1 + (C - 1) * (15 / 100)
    let decisionValue := posInfluence * cAdjustment - negInfluence
    ({ point := point, idx := ip.1, score := |decisionValue|
       decisionValue := decisionValue } : SVScoreRec)
  let sorted := pointsWithScore.insertionSort fun a b => a.score ≤ b.score
  let threshold :=
    max (3 / 10) (sorted.getD (min 10 (data.length - 1)) dfltSVScoreRec).score
  let boundaryPoints :=
    (sorted.filter fun p => p.score ≤ threshold).take
      (min 20 (data.length * 25 / 100))
  if boundaryPoints.length < 8 then
    (sorted.take (min 20 (data.length * 30 / 100))).map fun p => p.idx
  else
    boundaryPoints.map fun p => p.idx

/-- Modelled from the spec (amended for the true sample count): the
boundaryGridSamples sequence as the spec describes it — the decision score
evaluated at the 41 × 41 points (resolution 40, endpoints included)
spanning the data's bounding box independently in x and y.  To be compared
with generateBoundary. -/
def boundaryGridSpec (ops : RealOps) (data : List DataPoint) (C gamma : ℚ)
    (kernel : Kernel) (degree : ℕ) : List BoundaryPoint :=
  let xMin := listMin (data.map fun d => d.x)
  let xMax := listMax (data.map fun d => d.x)
  let yMin := listMin (data.map fun d => d.y)
  let yMax := listMax (data.map fun d => d.y)
  let posCentroid := centerOfMass (positives data)
  let negCentroid := centerOfMass (negatives data)
  (List.range (40 + 1)).flatMap fun (i : ℕ) =>
    (List.range (40 + 1)).map fun (j : ℕ) =>
      let x := xMin + ((i : ℚ) / ((40 : ℕ) : ℚ)) * (xMax - xMin)
      let y := yMin + ((j : ℚ) / ((40 : ℕ) : ℚ)) * (yMax - yMin)
      { x := x, y := y
        value := decisionFunction ops kernel gamma degree C
          { x := x, y := y, label := false } posCentroid negCentroid }

/-- Modelled from the amended claim for the sigmoid support-vector
selection: evaluate, at every data point, the average of
tanh(gamma · (p·q) + 1) over each class's points (p·q the dot product),
apply the C-adjustment 1 + (C-1)·0.15 to the positive influence, rank by
the absolute decision value ascending (stably), keep at most
min(20, floor(0.25·n)) points at or below the threshold
max(0.3, score at ascending index min(10, n-1)), and if fewer than 8
qualify take the min(20, floor(0.3·n)) closest instead. -/
def sigmoidSelectionAmended (ops : RealOps)
    (data positive negative : List DataPoint) (C gamma : ℚ) : List ℕ :=
  let scored := data.enum.map fun ip =>
    let point := ip.2
    let posInfluence :=
      (positive.map fun pos =>
        ops.tanh (gamma * (point.x * pos.x + point.y * pos.y) + 1)).sum /
        (positive.length : ℚ)
    let negInfluence :=
      (negative.map fun neg =>
        ops.tanh (gamma * (point.x * neg.x + point.y * neg.y) + 1)).sum /
        (negative.length : ℚ)
    let cAdjustment := 1 + (C - 1) * (15 / 100)
    let decisionValue := posInfluence * cAdjustment - negInfluence
    ({ point := point, idx := ip.1, score := |decisionValue|
       decisionValue := decisionValue } : SVScoreRec)
  let ranked := scored.insertionSort fun a b => a.score ≤ b.score
  let threshold :=
    max (3 / 10) (ranked.getD (min 10 (data.length - 1)) dfltSVScoreRec).score
  let kept :=
    (ranked.filter fun p => p.score ≤ threshold).take
      (min 20 (data.length * 25 / 100))
  if kept.length < 8 then
    (ranked.take (min 20 (data.length * 30 / 100))).map fun p => p.idx
  else
    kept.map fun p => p.idx

/-- Nondegeneracy of the geometry used by the support-vector selection for
a given kernel: the denominators the linear and polynomial branches divide
by are nonzero (the class x-means differ for the linear and the degree-1
polynomial branch; the data's x-range is nonzero for the degree-2/3
polynomial branch; the rbf and sigmoid branches divide only by the class
sizes).  This is exactly the condition under which the JavaScript
arithmetic of those branches stays finite — with a zero denominator the
source computes NaN distances and returns an empty selection, the spec's
DegenerateGeometry fallback notwithstanding. -/
def svGeometryNondegenerate (data positive negative : List DataPoint)
    (kernel : Kernel) (degree : ℕ) : Prop :=
  match kernel with
  | .linear =>
      (positive.map (fun p => p.x)).sum / (positive.length : ℚ) ≠
        (negative.map (fun p => p.x)).sum / (negative.length : ℚ)
  | .polynomial =>
      (degree = 1 →
        (positive.map (fun p => p.x)).sum / (positive.length : ℚ) ≠
          (negative.map (fun p => p.x)).sum / (negative.length : ℚ)) ∧
      (degree ≠ 1 →
        listMax (data.map fun d => d.x) - listMin (data.map fun d => d.x) ≠
          0)
  | .rbf => True
  | .sigmoid => True

instance (data positive negative : List DataPoint) (kernel : Kernel)
    (degree : ℕ) :
    Decidable (svGeometryNondegenerate data positive negative kernel degree) := by
  unfold svGeometryNondegenerate
  cases kernel <;> infer_instance

/-! ### General lemmas about the embedding -/

theorem le_foldl_max (t : List ℚ) (init : ℚ) : init ≤ t.foldl max init := by
  induction t generalizing init with
  | nil => exact le_refl init
  | cons h t ih => exact le_trans (le_max_left init h) (ih (max init h))

theorem mem_le_foldl_max {x : ℚ} (t : List ℚ) (init : ℚ) (hx : x ∈ t) :
    x ≤ t.foldl max init := by
  induction t generalizing init with
  | nil => cases hx
  | cons h t ih =>
    rcases List.mem_cons.mp hx with rfl | hx'
    · exact le_trans (le_max_right init x) (le_foldl_max t (max init x))
    · exact ih (max init h) hx'

theorem foldl_min_le (t : List ℚ) (init : ℚ) : t.foldl min init ≤ init := by
  induction t generalizing init with
  | nil => exact le_refl init
  | cons h t ih => exact le_trans (ih (min init h)) (min_le_left init h)

theorem foldl_min_le_mem {x : ℚ} (t : List ℚ) (init : ℚ) (hx : x ∈ t) :
    t.foldl min init ≤ x := by
  induction t generalizing init with
  | nil => cases hx
  | cons h t ih =>
    rcases List.mem_cons.mp hx with rfl | hx'
    · exact le_trans (foldl_min_le t (min init x)) (min_le_right init x)
    · exact ih (min init h) hx'

theorem le_listMax {x : ℚ} {l : List ℚ} (hx : x ∈ l) : x ≤ listMax l := by
  cases l with
  | nil => cases hx
  | cons h t =>
    rcases List.mem_cons.mp hx with rfl | hx'
    · exact le_foldl_max t x
    · exact mem_le_foldl_max t h hx'

theorem listMin_le {x : ℚ} {l : List ℚ} (hx : x ∈ l) : listMin l ≤ x := by
  cases l with
  | nil => cases hx
  | cons h t =>
    rcases List.mem_cons.mp hx with rfl | hx'
    · exact foldl_min_le t x
    · exact foldl_min_le_mem t h hx'

theorem listMin_le_listMax {l : List ℚ} (hl : l ≠ []) :
    listMin l ≤ listMax l := by
  cases l with
  | nil => exact absurd rfl hl
  | cons h t =>
    exact le_trans (foldl_min_le t h) (le_foldl_max t h)

theorem affinitySpec_eq (ops : RealOps) (kernel : Kernel) (gamma : ℚ)
    (degree : ℕ) (p q : DataPoint) :
    affinitySpec ops kernel gamma degree p q =
      kernelDistance ops kernel gamma degree p q := by
  cases kernel <;> rfl

/-! ### C2: the prediction rule -/

/-- C2: for every dataset with at least one point of each label, every
parameter setting and every point, the engine predicts label 1 exactly when
the spec's decision score (kernel affinity to the negative centroid minus
affinity to the positive centroid, times 1 + tanh(C·0.5)·0.5) is
nonnegative, with the spec's kernel affinity table. -/
theorem predict_iff_score_nonneg (ops : RealOps) (data : List DataPoint)
    (C gamma : ℚ) (kernel : Kernel) (degree : ℕ) (p : DataPoint)
    (hpos : positives data ≠ []) (hneg : negatives data ≠ []) :
    predict ops data C gamma kernel degree p = 1 ↔
      0 ≤ decisionScoreSpec ops data C gamma kernel degree p := by
  have hds : decisionScoreSpec ops data C gamma kernel degree p =
      decisionFunction ops kernel gamma degree C p
        (centerOfMass (positives data)) (centerOfMass (negatives data)) := by
    unfold decisionScoreSpec decisionFunction
    simp [affinitySpec_eq]
  rw [hds]
  show (if 0 ≤ decisionFunction ops kernel gamma degree C p
      (centerOfMass (positives data)) (centerOfMass (negatives data))
      then 1 else 0) = 1 ↔
    0 ≤ decisionFunction ops kernel gamma degree C p
      (centerOfMass (positives data)) (centerOfMass (negatives data))
  split
  · rename_i h
    exact ⟨fun _ => h, fun _ => rfl⟩
  · rename_i h
    exact ⟨fun h1 => absurd h1 (by norm_num), fun h0 => absurd h0 h⟩

/-- Witness for C2 at a concrete two-point dataset, linear kernel, C = 1,
gamma = 1/10. -/
theorem predict_iff_score_nonneg_witness :
    (positives [(⟨0, 0, false⟩ : DataPoint), ⟨2, 2, true⟩] ≠ [] ∧
      negatives [(⟨0, 0, false⟩ : DataPoint), ⟨2, 2, true⟩] ≠ []) ∧
    (predict ratOps [⟨0, 0, false⟩, ⟨2, 2, true⟩] 1 (1 / 10) Kernel.linear 2
        ⟨0, 0, false⟩ = 1 ↔
      0 ≤ decisionScoreSpec ratOps [⟨0, 0, false⟩, ⟨2, 2, true⟩] 1 (1 / 10)
        Kernel.linear 2 ⟨0, 0, false⟩) :=
  ⟨⟨by decide, by decide⟩,
    predict_iff_score_nonneg ratOps [⟨0, 0, false⟩, ⟨2, 2, true⟩] 1 (1 / 10)
      Kernel.linear 2 ⟨0, 0, false⟩ (by decide) (by decide)⟩

/-! ### C5: margin width monotonicity -/

/-- C5: for the linear kernel with the dataset fixed, the margin band width
never grows with C: both the visualization's generic-path width
baseMargin / (C + 0.1) (with baseMargin = 8% of the y-range) and the
engine's width 1 / (C + 0.5) are antitone on [0.1, 10], and the generic
width is exactly the y-range fraction formula. -/
theorem margin_width_monotone (data : List DataPoint) (C₁ C₂ : ℚ)
    (hdata : data ≠ []) (h1 : 1 / 10 ≤ C₁) (h12 : C₁ < C₂) (h2 : C₂ ≤ 10) :
    marginLineWidth data C₂ ≤ marginLineWidth data C₁ ∧
    marginWidthEngine C₂ ≤ marginWidthEngine C₁ ∧
    marginLineWidth data C₁ =
      (listMax (data.map fun d => d.y) - listMin (data.map fun d => d.y)) *
        (8 / 100) / (C₁ + 1 / 10) := by
  have hmap : data.map (fun d => d.y) ≠ [] := by
    intro h
    exact hdata (List.map_eq_nil_iff.mp h)
  have hyr : 0 ≤ listMax (data.map fun d => d.y) -
      listMin (data.map fun d => d.y) :=
    sub_nonneg.mpr (listMin_le_listMax hmap)
  refine ⟨?_, ?_, rfl⟩
  · unfold marginLineWidth
    exact div_le_div_of_nonneg_left (by nlinarith) (by linarith) (by linarith)
  · unfold marginWidthEngine
    exact div_le_div_of_nonneg_left (by norm_num) (by linarith) (by linarith)

/-- Witness for C5 at a concrete dataset and C values 1 < 2. -/
theorem margin_width_monotone_witness :
    ([(⟨0, 0, true⟩ : DataPoint), ⟨0, 1, false⟩] ≠ [] ∧
      (1 : ℚ) / 10 ≤ 1 ∧ (1 : ℚ) < 2 ∧ (2 : ℚ) ≤ 10) ∧
    (marginLineWidth [⟨0, 0, true⟩, ⟨0, 1, false⟩] 2 ≤
        marginLineWidth [⟨0, 0, true⟩, ⟨0, 1, false⟩] 1 ∧
      marginWidthEngine 2 ≤ marginWidthEngine 1 ∧
      marginLineWidth [⟨0, 0, true⟩, ⟨0, 1, false⟩] 1 =
        (listMax ([⟨0, 0, true⟩, ⟨0, 1, false⟩].map fun d : DataPoint => d.y) -
          listMin ([⟨0, 0, true⟩, ⟨0, 1, false⟩].map fun d : DataPoint => d.y)) *
          (8 / 100) / (1 + 1 / 10)) :=
  ⟨⟨by decide, by norm_num, by norm_num, by norm_num⟩,
    margin_width_monotone [⟨0, 0, true⟩, ⟨0, 1, false⟩] 1 2 (by decide)
      (by norm_num) (by norm_num) (by norm_num)⟩

/-! ### C9: the background score grid -/

theorem length_flatMap_grid {α : Type} (n m : ℕ) (f : ℕ → ℕ → α) :
    ((List.range n).flatMap fun i => (List.range m).map (f i)).length =
      n * m := by
  rw [List.length_flatMap]
  have hc : (List.length ∘ fun i => (List.range m).map (f i)) =
      fun _ => m := by
    funext i
    simp
  rw [hc, List.map_const']
  simp [List.sum_replicate, smul_eq_mul]

theorem generateBoundary_length (ops : RealOps) (data : List DataPoint)
    (C gamma : ℚ) (kernel : Kernel) (degree : ℕ) :
    (generateBoundary ops data C gamma kernel degree).length = 1681 := by
  unfold generateBoundary
  exact length_flatMap_grid 41 41 _

set_option maxRecDepth 8000 in
/-- C9 (amended): boundaryGridSamples is the decision score evaluated on
the inclusive resolution-40 grid spanning the data's bounding box — 41
samples per axis, hence exactly 1681 samples (not at most 400). -/
theorem boundary_grid_samples (ops : RealOps) (data : List DataPoint)
    (C gamma : ℚ) (kernel : Kernel) (degree : ℕ) :
    generateBoundary ops data C gamma kernel degree =
      boundaryGridSpec ops data C gamma kernel degree ∧
    (generateBoundary ops data C gamma kernel degree).length = 1681 :=
  ⟨rfl, generateBoundary_length ops data C gamma kernel degree⟩

/-- Counterexample to C9 as stated: already on a two-point dataset the grid
holds 1681 samples, exceeding the claimed bound of 400. -/
theorem boundary_grid_samples_cex :
    ¬ ((generateBoundary ratOps [⟨0, 0, true⟩, ⟨1, 1, false⟩] 1 (1 / 10)
        Kernel.linear 2).length ≤ 400) := by
  rw [generateBoundary_length]
  decide

/-! ### C10: predictions and metrics do not depend on C -/

theorem predict_eq_of_tanh_bounded (ops : RealOps) (data : List DataPoint)
    (C gamma : ℚ) (kernel : Kernel) (degree : ℕ) (p : DataPoint)
    (htanh : ∀ x, -1 ≤ ops.tanh x) :
    predict ops data C gamma kernel degree p =
      if 0 ≤ kernelDistance ops kernel gamma degree p
          (centerOfMass (negatives data)) -
          kernelDistance ops kernel gamma degree p
          (centerOfMass (positives data))
      then 1 else 0 := by
  show (if 0 ≤ decisionFunction ops kernel gamma degree C p
      (centerOfMass (positives data)) (centerOfMass (negatives data))
      then 1 else 0) = _
  have hpos : 0 < 1 + ops.tanh (C * (1 / 2)) * (1 / 2) := by
    have := htanh (C * (1 / 2))
    linarith
  have hiff : (0 ≤ decisionFunction ops kernel gamma degree C p
      (centerOfMass (positives data)) (centerOfMass (negatives data))) ↔
      (0 ≤ kernelDistance ops kernel gamma degree p
        (centerOfMass (negatives data)) -
        kernelDistance ops kernel gamma degree p
        (centerOfMass (positives data))) := by
    unfold decisionFunction
    exact mul_nonneg_iff_of_pos_right hpos
  simp only [hiff]

theorem neg_one_le_ratTanh (x : ℚ) : -1 ≤ ratTanh x :=
  le_max_left (-1) (min 1 (x * (15 + x ^ 2) / (15 + 6 * x ^ 2)))

/-- C10: with the dataset, gamma, kernel and degree fixed and any two
strictness values C₁, C₂ in [0.1, 10], every point receives the same
predicted label (the decision-score multiplier 1 + tanh(C·0.5)·0.5 is
strictly positive since tanh is bounded below by -1), and hence the
confusion matrix, accuracy, precision and recall of train are identical. -/
theorem metrics_independent_of_C (ops : RealOps) (data : List DataPoint)
    (gamma : ℚ) (kernel : Kernel) (degree : ℕ) (C₁ C₂ : ℚ)
    (htanh : ∀ x, -1 ≤ ops.tanh x)
    (hpos : positives data ≠ []) (hneg : negatives data ≠ [])
    (hC₁ : 1 / 10 ≤ C₁ ∧ C₁ ≤ 10) (hC₂ : 1 / 10 ≤ C₂ ∧ C₂ ≤ 10) :
    (∀ p, predict ops data C₁ gamma kernel degree p =
      predict ops data C₂ gamma kernel degree p) ∧
    (train ops data C₁ gamma kernel degree).confusionMatrix =
      (train ops data C₂ gamma kernel degree).confusionMatrix ∧
    (train ops data C₁ gamma kernel degree).accuracy =
      (train ops data C₂ gamma kernel degree).accuracy ∧
    (train ops data C₁ gamma kernel degree).precision =
      (train ops data C₂ gamma kernel degree).precision ∧
    (train ops data C₁ gamma kernel degree).recall =
      (train ops data C₂ gamma kernel degree).recall := by
  have hp : ∀ p, predict ops data C₁ gamma kernel degree p =
      predict ops data C₂ gamma kernel degree p := by
    intro p
    rw [predict_eq_of_tanh_bounded ops data C₁ gamma kernel degree p htanh,
      predict_eq_of_tanh_bounded ops data C₂ gamma kernel degree p htanh]
  have hm : calculateMetrics data
        (data.map (predict ops data C₁ gamma kernel degree)) =
      calculateMetrics data
        (data.map (predict ops data C₂ gamma kernel degree)) := by
    rw [List.map_congr_left fun a _ => hp a]
  exact ⟨hp, congrArg MetricsResult.confusionMatrix hm,
    congrArg MetricsResult.accuracy hm,
    congrArg MetricsResult.precision hm,
    congrArg MetricsResult.recall hm⟩

/-- Witness for C10 at a concrete mixed dataset, C values 1 and 2, linear
kernel. -/
theorem metrics_independent_of_C_witness :
    ((∀ x, -1 ≤ ratOps.tanh x) ∧
      positives [(⟨0, 0, true⟩ : DataPoint), ⟨1, 1, false⟩] ≠ [] ∧
      negatives [(⟨0, 0, true⟩ : DataPoint), ⟨1, 1, false⟩] ≠ []) ∧
    (train ratOps [⟨0, 0, true⟩, ⟨1, 1, false⟩] 1 (1 / 10) Kernel.linear
        2).accuracy =
      (train ratOps [⟨0, 0, true⟩, ⟨1, 1, false⟩] 2 (1 / 10) Kernel.linear
        2).accuracy :=
  ⟨⟨neg_one_le_ratTanh, by decide, by decide⟩,
    (metrics_independent_of_C ratOps [⟨0, 0, true⟩, ⟨1, 1, false⟩] (1 / 10)
      Kernel.linear 2 1 2 neg_one_le_ratTanh (by decide) (by decide)
      ⟨by norm_num, by norm_num⟩ ⟨by norm_num, by norm_num⟩).2.2.1⟩

/-! ### Confusion-matrix accounting -/

theorem predict_zero_or_one (ops : RealOps) (data : List DataPoint)
    (C gamma : ℚ) (kernel : Kernel) (degree : ℕ) (p : DataPoint) :
    predict ops data C gamma kernel degree p = 0 ∨
      predict ops data C gamma kernel degree p = 1 := by
  show (if 0 ≤ decisionFunction ops kernel gamma degree C p
      (centerOfMass (positives data)) (centerOfMass (negatives data))
      then (1 : ℕ) else 0) = 0 ∨
    (if 0 ≤ decisionFunction ops kernel gamma degree C p
      (centerOfMass (positives data)) (centerOfMass (negatives data))
      then (1 : ℕ) else 0) = 1
  split
  · exact Or.inr rfl
  · exact Or.inl rfl

theorem four_filter_split (l : List (DataPoint × ℕ))
    (h : ∀ x ∈ l, x.2 = 0 ∨ x.2 = 1) :
    (l.filter fun dp => dp.2 == 1 && dp.1.label).length +
      (l.filter fun dp => dp.2 == 1 && !dp.1.label).length +
      (l.filter fun dp => dp.2 == 0 && !dp.1.label).length +
      (l.filter fun dp => dp.2 == 0 && dp.1.label).length = l.length := by
  induction l with
  | nil => rfl
  | cons x t ih =>
    have hx := h x (List.mem_cons_self x t)
    have ih' := ih fun y hy => h y (List.mem_cons_of_mem x hy)
    rcases hx with h2 | h2 <;> cases hl : x.1.label <;>
      simp [List.filter_cons, h2, hl] <;> omega

theorem zip_preds_zero_or_one (data : List DataPoint) (ops : RealOps)
    (C gamma : ℚ) (kernel : Kernel) (degree : ℕ) :
    ∀ x ∈ data.zip (data.map (predict ops data C gamma kernel degree)),
      x.2 = 0 ∨ x.2 = 1 := by
  intro x hx
  have hx2 : x.2 ∈ data.map (predict ops data C gamma kernel degree) :=
    (List.of_mem_zip (by simpa using hx)).2
  obtain ⟨p, _, hp⟩ := List.mem_map.mp hx2
  rw [← hp]
  exact predict_zero_or_one ops data C gamma kernel degree p

theorem zip_preds_length (data : List DataPoint) (ops : RealOps)
    (C gamma : ℚ) (kernel : Kernel) (degree : ℕ) :
    (data.zip (data.map (predict ops data C gamma kernel degree))).length =
      data.length := by
  rw [List.length_zip, List.length_map, min_self]

/-! ### C3: confusion-matrix conservation and metric bounds -/

/-- C3: for every dataset with at least one point of each label and every
parameter setting, the confusion-matrix counts of train sum exactly to the
dataset size, accuracy is (TP+TN)/total, precision is TP/(TP+FP) and recall
TP/(TP+FN) with the zero-denominator case equal to 0 exactly (the || 0
coercion of the source), and accuracy, precision and recall all lie in
[0, 1]. -/
theorem metrics_sound (ops : RealOps) (data : List DataPoint) (C gamma : ℚ)
    (kernel : Kernel) (degree : ℕ)
    (hpos : positives data ≠ []) (hneg : negatives data ≠ []) :
    ((train ops data C gamma kernel degree).confusionMatrix.truePositive +
      (train ops data C gamma kernel degree).confusionMatrix.falsePositive +
      (train ops data C gamma kernel degree).confusionMatrix.trueNegative +
      (train ops data C gamma kernel degree).confusionMatrix.falseNegative =
      data.length) ∧
    ((train ops data C gamma kernel degree).accuracy =
      (((train ops data C gamma kernel degree).confusionMatrix.truePositive : ℚ) +
        ((train ops data C gamma kernel degree).confusionMatrix.trueNegative : ℚ)) /
        (data.length : ℚ)) ∧
    ((train ops data C gamma kernel degree).precision =
      if (train ops data C gamma kernel degree).confusionMatrix.truePositive +
          (train ops data C gamma kernel degree).confusionMatrix.falsePositive = 0
      then 0
      else ((train ops data C gamma kernel degree).confusionMatrix.truePositive : ℚ) /
        (((train ops data C gamma kernel degree).confusionMatrix.truePositive : ℚ) +
          ((train ops data C gamma kernel degree).confusionMatrix.falsePositive : ℚ))) ∧
    ((train ops data C gamma kernel degree).recall =
      if (train ops data C gamma kernel degree).confusionMatrix.truePositive +
          (train ops data C gamma kernel degree).confusionMatrix.falseNegative = 0
      then 0
      else ((train ops data C gamma kernel degree).confusionMatrix.truePositive : ℚ) /
        (((train ops data C gamma kernel degree).confusionMatrix.truePositive : ℚ) +
          ((train ops data C gamma kernel degree).confusionMatrix.falseNegative : ℚ))) ∧
    (0 ≤ (train ops data C gamma kernel degree).accuracy ∧
      (train ops data C gamma kernel degree).accuracy ≤ 1) ∧
    (0 ≤ (train ops data C gamma kernel degree).precision ∧
      (train ops data C gamma kernel degree).precision ≤ 1) ∧
    (0 ≤ (train ops data C gamma kernel degree).recall ∧
      (train ops data C gamma kernel degree).recall ≤ 1) := by
  have hne : data ≠ [] := by
    intro h
    rw [h] at hpos
    exact hpos rfl
  have hlen : 0 < data.length := List.length_pos_of_ne_nil hne
  set pairs := data.zip (data.map (predict ops data C gamma kernel degree))
    with hpairs
  set tp := (pairs.filter fun dp => dp.2 == 1 && dp.1.label).length with htp
  set fp := (pairs.filter fun dp => dp.2 == 1 && !dp.1.label).length with hfp
  set tn := (pairs.filter fun dp => dp.2 == 0 && !dp.1.label).length with htn
  set fnc := (pairs.filter fun dp => dp.2 == 0 && dp.1.label).length with hfnc
  have hsum : tp + fp + tn + fnc = data.length := by
    rw [htp, hfp, htn, hfnc]
    rw [four_filter_split pairs
      (zip_preds_zero_or_one data ops C gamma kernel degree)]
    exact zip_preds_length data ops C gamma kernel degree
  have hcmtp : (train ops data C gamma kernel degree).confusionMatrix.truePositive = tp := rfl
  have hcmfp : (train ops data C gamma kernel degree).confusionMatrix.falsePositive = fp := rfl
  have hcmtn : (train ops data C gamma kernel degree).confusionMatrix.trueNegative = tn := rfl
  have hcmfn : (train ops data C gamma kernel degree).confusionMatrix.falseNegative = fnc := rfl
  have hacc : (train ops data C gamma kernel degree).accuracy =
      ((tp : ℚ) + (tn : ℚ)) / (data.length : ℚ) := rfl
  have hprec : (train ops data C gamma kernel degree).precision =
      if tp + fp = 0 then 0 else (tp : ℚ) / ((tp : ℚ) + (fp : ℚ)) := rfl
  have hrec : (train ops data C gamma kernel degree).recall =
      if tp + fnc = 0 then 0 else (tp : ℚ) / ((tp : ℚ) + (fnc : ℚ)) := rfl
  have hlenQ : (0 : ℚ) < (data.length : ℚ) := by exact_mod_cast hlen
  refine ⟨by rw [hcmtp, hcmfp, hcmtn, hcmfn]; exact hsum,
    by rw [hacc, hcmtp, hcmtn],
    by rw [hprec, hcmtp, hcmfp],
    by rw [hrec, hcmtp, hcmfn], ?_, ?_, ?_⟩
  · constructor
    · rw [hacc]
      positivity
    · rw [hacc]
      rw [div_le_one hlenQ]
      have : tp + tn ≤ data.length := by omega
      exact_mod_cast this
  · rw [hprec]
    split
    · exact ⟨le_refl 0, by norm_num⟩
    · rename_i hd
      have hdpos : 0 < tp + fp := Nat.pos_of_ne_zero hd
      have hdQ : (0 : ℚ) < (tp : ℚ) + (fp : ℚ) := by exact_mod_cast hdpos
      constructor
      · positivity
      · rw [div_le_one hdQ]
        have : tp ≤ tp + fp := Nat.le_add_right tp fp
        exact_mod_cast this
  · rw [hrec]
    split
    · exact ⟨le_refl 0, by norm_num⟩
    · rename_i hd
      have hdpos : 0 < tp + fnc := Nat.pos_of_ne_zero hd
      have hdQ : (0 : ℚ) < (tp : ℚ) + (fnc : ℚ) := by exact_mod_cast hdpos
      constructor
      · positivity
      · rw [div_le_one hdQ]
        have : tp ≤ tp + fnc := Nat.le_add_right tp fnc
        exact_mod_cast this

/-- Witness for C3 at a concrete two-point dataset. -/
theorem metrics_sound_witness :
    (positives [(⟨0, 0, true⟩ : DataPoint), ⟨3, 3, false⟩] ≠ [] ∧
      negatives [(⟨0, 0, true⟩ : DataPoint), ⟨3, 3, false⟩] ≠ []) ∧
    ((train ratOps [⟨0, 0, true⟩, ⟨3, 3, false⟩] 1 (1 / 10) Kernel.rbf
        2).confusionMatrix.truePositive +
      (train ratOps [⟨0, 0, true⟩, ⟨3, 3, false⟩] 1 (1 / 10) Kernel.rbf
        2).confusionMatrix.falsePositive +
      (train ratOps [⟨0, 0, true⟩, ⟨3, 3, false⟩] 1 (1 / 10) Kernel.rbf
        2).confusionMatrix.trueNegative +
      (train ratOps [⟨0, 0, true⟩, ⟨3, 3, false⟩] 1 (1 / 10) Kernel.rbf
        2).confusionMatrix.falseNegative = 2) ∧
    (0 ≤ (train ratOps [⟨0, 0, true⟩, ⟨3, 3, false⟩] 1 (1 / 10) Kernel.rbf
        2).accuracy ∧
      (train ratOps [⟨0, 0, true⟩, ⟨3, 3, false⟩] 1 (1 / 10) Kernel.rbf
        2).accuracy ≤ 1) :=
  ⟨⟨by decide, by decide⟩,
    (metrics_sound ratOps [⟨0, 0, true⟩, ⟨3, 3, false⟩] 1 (1 / 10) Kernel.rbf
      2 (by decide) (by decide)).1,
    (metrics_sound ratOps [⟨0, 0, true⟩, ⟨3, 3, false⟩] 1 (1 / 10) Kernel.rbf
      2 (by decide) (by decide)).2.2.2.2.1⟩

/-! ### C1: no class-diversity signal exists -/

/-- C1 (amended): the engine performs no class-diversity check and signals
nothing: train is total, and on an all-label-1 dataset it simply returns a
result whose confusion matrix has falsePositive = trueNegative = 0 and
truePositive + falseNegative = the dataset size.  (In the JavaScript source
the empty-class centroid is NaN so every comparison fails and every
prediction is 0; the counts stated here hold under either semantics.) -/
theorem train_single_class_returns (ops : RealOps) (data : List DataPoint)
    (C gamma : ℚ) (kernel : Kernel) (degree : ℕ)
    (hall : ∀ p ∈ data, p.label = true) :
    (train ops data C gamma kernel degree).confusionMatrix.falsePositive = 0 ∧
    (train ops data C gamma kernel degree).confusionMatrix.trueNegative = 0 ∧
    (train ops data C gamma kernel degree).confusionMatrix.truePositive +
      (train ops data C gamma kernel degree).confusionMatrix.falseNegative =
      data.length := by
  set pairs := data.zip (data.map (predict ops data C gamma kernel degree))
    with hpairs
  have hlab : ∀ x ∈ pairs, x.1.label = true := by
    intro x hx
    exact hall x.1 (List.of_mem_zip (by simpa [hpairs] using hx)).1
  have hfp : (train ops data C gamma kernel degree).confusionMatrix.falsePositive =
      (pairs.filter fun dp => dp.2 == 1 && !dp.1.label).length := rfl
  have htn : (train ops data C gamma kernel degree).confusionMatrix.trueNegative =
      (pairs.filter fun dp => dp.2 == 0 && !dp.1.label).length := rfl
  have hfp0 : (pairs.filter fun dp => dp.2 == 1 && !dp.1.label).length = 0 := by
    rw [List.filter_eq_nil_iff.mpr]
    · rfl
    · intro a ha
      simp [hlab a ha]
  have htn0 : (pairs.filter fun dp => dp.2 == 0 && !dp.1.label).length = 0 := by
    rw [List.filter_eq_nil_iff.mpr]
    · rfl
    · intro a ha
      simp [hlab a ha]
  refine ⟨by rw [hfp]; exact hfp0, by rw [htn]; exact htn0, ?_⟩
  have hsum := four_filter_split pairs
    (zip_preds_zero_or_one data ops C gamma kernel degree)
  rw [zip_preds_length data ops C gamma kernel degree] at hsum
  have htp : (train ops data C gamma kernel degree).confusionMatrix.truePositive =
      (pairs.filter fun dp => dp.2 == 1 && dp.1.label).length := rfl
  have hfn : (train ops data C gamma kernel degree).confusionMatrix.falseNegative =
      (pairs.filter fun dp => dp.2 == 0 && dp.1.label).length := rfl
  rw [htp, hfn]
  omega

/-- Witness for C1 (amended) at a concrete all-positive dataset. -/
theorem train_single_class_returns_witness :
    (∀ p ∈ [(⟨0, 0, true⟩ : DataPoint), ⟨1, 0, true⟩, ⟨2, 1, true⟩],
      p.label = true) ∧
    (train ratOps [⟨0, 0, true⟩, ⟨1, 0, true⟩, ⟨2, 1, true⟩] 1 (1 / 10)
        Kernel.linear 2).confusionMatrix.truePositive +
      (train ratOps [⟨0, 0, true⟩, ⟨1, 0, true⟩, ⟨2, 1, true⟩] 1 (1 / 10)
        Kernel.linear 2).confusionMatrix.falseNegative = 3 :=
  ⟨by decide,
    (train_single_class_returns ratOps
      [⟨0, 0, true⟩, ⟨1, 0, true⟩, ⟨2, 1, true⟩] 1 (1 / 10) Kernel.linear 2
      (by decide)).2.2⟩

/-- Counterexample to C1 as stated: on an all-label-1 three-point dataset
train does not signal any InsufficientClassDiversity condition — the source
contains no such condition and no throw at all — it returns an ordinary
result, here with falsePositive = trueNegative = 0 and
truePositive + falseNegative = 3. -/
theorem train_single_class_cex :
    (train ratOps [⟨0, 0, true⟩, ⟨1, 0, true⟩, ⟨2, 1, true⟩] 1 (1 / 10)
        Kernel.linear 2).confusionMatrix.falsePositive = 0 ∧
    (train ratOps [⟨0, 0, true⟩, ⟨1, 0, true⟩, ⟨2, 1, true⟩] 1 (1 / 10)
        Kernel.linear 2).confusionMatrix.trueNegative = 0 ∧
    (train ratOps [⟨0, 0, true⟩, ⟨1, 0, true⟩, ⟨2, 1, true⟩] 1 (1 / 10)
        Kernel.linear 2).confusionMatrix.truePositive +
      (train ratOps [⟨0, 0, true⟩, ⟨1, 0, true⟩, ⟨2, 1, true⟩] 1 (1 / 10)
        Kernel.linear 2).confusionMatrix.falseNegative = 3 :=
  ⟨of_decide_eq_true (by with_unfolding_all rfl),
    of_decide_eq_true (by with_unfolding_all rfl),
    of_decide_eq_true (by with_unfolding_all rfl)⟩

/-! ### C8: hull-based class contours -/

/-- C8 (amended): for the rbf kernel, a class subset with fewer than 3
points is returned unchanged by the hull-contour generators (so the result
is empty exactly when the class is empty, not for 1- or 2-point classes);
with 3 or more points the contour is the monotone-chain hull inflated 2%
from its centroid and smoothed by two Chaikin passes. -/
theorem rbf_contour_cases (positiveData negativeData : List DataPoint) :
    (positiveData = [] →
      getRBFDecisionBoundary Kernel.rbf positiveData = []) ∧
    (positiveData.length < 3 →
      getRBFDecisionBoundary Kernel.rbf positiveData =
        positiveData.map fun p => ({ x := p.x, y := p.y } : Pt2)) ∧
    (3 ≤ positiveData.length →
      getRBFDecisionBoundary Kernel.rbf positiveData =
        chaikinPass (chaikinPass (inflateFromCentroid (monotoneChainHull
          (positiveData.map fun p => ({ x := p.x, y := p.y } : Pt2)))))) ∧
    (negativeData = [] →
      getRBFNegativeBoundary Kernel.rbf negativeData = []) ∧
    (negativeData.length < 3 →
      getRBFNegativeBoundary Kernel.rbf negativeData =
        negativeData.map fun p => ({ x := p.x, y := p.y } : Pt2)) ∧
    (3 ≤ negativeData.length →
      getRBFNegativeBoundary Kernel.rbf negativeData =
        chaikinPass (chaikinPass (inflateFromCentroid (monotoneChainHull
          (negativeData.map fun p => ({ x := p.x, y := p.y } : Pt2)))))) := by
  refine ⟨?_, ?_, ?_, ?_, ?_, ?_⟩
  · rintro rfl
    rfl
  · intro h
    unfold getRBFDecisionBoundary
    rw [if_neg (by simp), if_pos (by simpa using h)]
  · intro h
    unfold getRBFDecisionBoundary
    rw [if_neg (by simp), if_neg (by simp [Nat.not_lt.mpr h])]
  · rintro rfl
    rfl
  · intro h
    unfold getRBFNegativeBoundary
    rw [if_neg (by simp), if_pos (by simpa using h)]
  · intro h
    unfold getRBFNegativeBoundary
    rw [if_neg (by simp), if_neg (by simp [Nat.not_lt.mpr h])]

/-- Witness for C8 (amended) at a concrete one-point class. -/
theorem rbf_contour_cases_witness :
    ([(⟨5, 5, true⟩ : DataPoint)].length < 3) ∧
    getRBFDecisionBoundary Kernel.rbf [⟨5, 5, true⟩] = [{ x := 5, y := 5 }] :=
  ⟨by decide,
    (rbf_contour_cases [⟨5, 5, true⟩] []).2.1 (by decide)⟩

/-- Counterexample to C8 as stated: a one-point negative class is returned
as that point, not as an empty sequence. -/
theorem rbf_contour_cex :
    getRBFNegativeBoundary Kernel.rbf [⟨1, 1, false⟩] = [{ x := 1, y := 1 }] ∧
    getRBFNegativeBoundary Kernel.rbf [⟨1, 1, false⟩] ≠ ([] : List Pt2) :=
  ⟨of_decide_eq_true (by with_unfolding_all rfl),
    of_decide_eq_true (by with_unfolding_all rfl)⟩

/-! ### C6: the sigmoid support-vector selection -/

/-- C6 (amended): the sigmoid branch of findSupportVectors scores every
data point by the class-averaged tanh(gamma · (p·q) + 1) of the DOT
PRODUCT with each class point (not the kernel's own squared-euclidean
affinity), applies the C-adjustment 1 + (C-1)·0.15 to the positive
influence, ranks by |score| ascending, keeps at most
min(20, floor(0.25·n)) points at or below the threshold max(0.3, score at
ascending index min(10, n-1)), and falls back to the min(20, floor(0.3·n))
closest when fewer than 8 qualify. -/
theorem sigmoid_selection_characterization (ops : RealOps)
    (data positive negative : List DataPoint) (C gamma : ℚ) (degree : ℕ) :
    findSupportVectors ops data positive negative C gamma Kernel.sigmoid
      degree = sigmoidSelectionAmended ops data positive negative C gamma :=
  rfl

/-- Counterexample to C6 as stated: on a concrete 4-point dataset the
selection computed with the claim's squared-euclidean affinity differs
from the engine's dot-product selection (the engine keeps index 2, the
claim's description keeps index 0); the comparison only uses that tanh is
strictly increasing on the evaluated arguments, which the rational
stand-in ratTanh is. -/
theorem sigmoid_selection_cex :
    findSupportVectors ratOps
        [⟨2, 0, true⟩, ⟨4, 2, true⟩, ⟨0, 2, false⟩, ⟨2, 0, false⟩]
        ([⟨2, 0, true⟩, ⟨4, 2, true⟩, ⟨0, 2, false⟩,
          ⟨2, 0, false⟩].filter fun d => d.label)
        ([⟨2, 0, true⟩, ⟨4, 2, true⟩, ⟨0, 2, false⟩,
          ⟨2, 0, false⟩].filter fun d => !d.label) 1 (1 / 10)
        Kernel.sigmoid 2 ≠
      sigmoidSelectionClaim ratOps
        [⟨2, 0, true⟩, ⟨4, 2, true⟩, ⟨0, 2, false⟩, ⟨2, 0, false⟩]
        ([⟨2, 0, true⟩, ⟨4, 2, true⟩, ⟨0, 2, false⟩,
          ⟨2, 0, false⟩].filter fun d => d.label)
        ([⟨2, 0, true⟩, ⟨4, 2, true⟩, ⟨0, 2, false⟩,
          ⟨2, 0, false⟩].filter fun d => !d.label) 1 (1 / 10) :=
  of_decide_eq_true (by with_unfolding_all rfl)

/-! ### C7: the loan-approval strict-margin search -/

theorem loanLoop_bounds (posProj negProj : List ℚ) (norm : ℚ) :
    ∀ (fuel : ℕ) (m lower upper : ℚ),
      (lower, upper) = loanComputeBounds posProj negProj norm m →
      ((loanLoop posProj negProj norm fuel m lower upper).2.1,
        (loanLoop posProj negProj norm fuel m lower upper).2.2) =
        loanComputeBounds posProj negProj norm
          (loanLoop posProj negProj norm fuel m lower upper).1 := by
  intro fuel
  induction fuel with
  | zero =>
    intro m lower upper h
    simpa [loanLoop] using h
  | succ n ih =>
    intro m lower upper h
    unfold loanLoop
    split
    · exact ih (m * (8 / 10)) _ _ rfl
    · simpa using h

theorem sq_le_sq_of_nonneg_le {x S : ℚ} (hx : 0 ≤ x) (h : x ≤ S) :
    x ^ 2 ≤ S ^ 2 := by nlinarith

theorem sq_le_sq_of_le_neg {x S : ℚ} (hx : 0 ≤ x) (h : S ≤ -x) :
    x ^ 2 ≤ S ^ 2 := by nlinarith

/-- C7 (amended): the loan branch searches for a feasible intercept
interval for the perpendicular margin, multiplying the candidate margin by
0.8 on each infeasible attempt for at most 10 attempts; whenever the search
ends with a feasible interval (lower ≤ upper) — and provided the square
root used for the projection norm is exact and nonnegative — no point of
either class lies strictly inside the resulting margin band.  When all 10
attempts stay infeasible the line is still emitted from the midpoint of the
empty interval, and a data point can lie inside the band (see the
counterexample). -/
theorem loan_margin_separation (ops : RealOps)
    (data posData negData : List DataPoint) (C : ℚ)
    (hfeas : (getDecisionBoundaryLineLoan ops data posData negData C).lower ≤
      (getDecisionBoundaryLineLoan ops data posData negData C).upper)
    (hnorm : (getDecisionBoundaryLineLoan ops data posData negData C).norm *
        (getDecisionBoundaryLineLoan ops data posData negData C).norm =
      (-(getDecisionBoundaryLineLoan ops data posData negData C).slope) *
        (-(getDecisionBoundaryLineLoan ops data posData negData C).slope) +
        1 * 1)
    (hmn : 0 ≤ (getDecisionBoundaryLineLoan ops data posData negData C).margin *
      (getDecisionBoundaryLineLoan ops data posData negData C).norm) :
    ∀ p : DataPoint, p ∈ posData ∨ p ∈ negData →
      ¬ loanCrossesBand
        (getDecisionBoundaryLineLoan ops data posData negData C).slope
        (getDecisionBoundaryLineLoan ops data posData negData C).cChosen
        (getDecisionBoundaryLineLoan ops data posData negData C).margin p := by
  intro p hp hcross
  set slope := loanSlope posData negData with hslope
  set norm := ops.sqrt ((-slope) * (-slope) + 1 * 1) with hnormdef
  set m0 := loanM0 data C with hm0
  set posProj := posData.map (fun q => (-slope) * q.x + 1 * q.y) with hposProj
  set negProj := negData.map (fun q => (-slope) * q.x + 1 * q.y) with hnegProj
  set final := loanLoop posProj negProj norm 10 m0
    (loanComputeBounds posProj negProj norm m0).1
    (loanComputeBounds posProj negProj norm m0).2 with hfinal
  have hinv : (final.2.1, final.2.2) =
      loanComputeBounds posProj negProj norm final.1 := by
    rw [hfinal]
    exact loanLoop_bounds posProj negProj norm 10 m0
      (loanComputeBounds posProj negProj norm m0).1
      (loanComputeBounds posProj negProj norm m0).2 rfl
  have hlowr : (getDecisionBoundaryLineLoan ops data posData negData C).lower =
      final.2.1 := rfl
  have huppr : (getDecisionBoundaryLineLoan ops data posData negData C).upper =
      final.2.2 := rfl
  have hmarg : (getDecisionBoundaryLineLoan ops data posData negData C).margin =
      final.1 := rfl
  have hslp : (getDecisionBoundaryLineLoan ops data posData negData C).slope =
      slope := rfl
  have hnrm : (getDecisionBoundaryLineLoan ops data posData negData C).norm =
      norm := rfl
  have hcc : (getDecisionBoundaryLineLoan ops data posData negData C).cChosen =
      (final.2.1 + final.2.2) / 2 := rfl
  rw [hlowr, huppr] at hfeas
  rw [hmarg, hnrm] at hmn
  rw [hslp, hcc, hmarg] at hcross
  rw [hnrm, hslp] at hnorm
  have hlow : final.2.1 =
      listMax (posProj.map fun v => final.1 * norm - v) :=
    congrArg Prod.fst hinv
  have hupp : final.2.2 =
      listMin (negProj.map fun v => -final.1 * norm - v) :=
    congrArg Prod.snd hinv
  unfold loanCrossesBand at hcross
  have hub : ((-slope) * p.x + 1 * p.y + (final.2.1 + final.2.2) / 2) ^ 2 <
      (final.1 * norm) ^ 2 := by
    have h6 : (final.1 * norm) ^ 2 =
        final.1 ^ 2 * ((-slope) * (-slope) + 1 * 1) := by
      have : norm * norm = (-slope) * (-slope) + 1 * 1 := hnorm
      nlinarith [this]
    rw [h6]
    exact hcross
  rcases hp with hpos | hneg
  · have hmem : final.1 * norm - ((-slope) * p.x + 1 * p.y) ∈
        posProj.map fun v => final.1 * norm - v := by
      rw [hposProj]
      exact List.mem_map_of_mem _ (List.mem_map_of_mem _ hpos)
    have h1 : final.1 * norm - ((-slope) * p.x + 1 * p.y) ≤ final.2.1 := by
      rw [hlow]
      exact le_listMax hmem
    have h3 : final.1 * norm ≤
        (-slope) * p.x + 1 * p.y + (final.2.1 + final.2.2) / 2 := by
      linarith
    have h4 := sq_le_sq_of_nonneg_le hmn h3
    linarith
  · have hmem : -final.1 * norm - ((-slope) * p.x + 1 * p.y) ∈
        negProj.map fun v => -final.1 * norm - v := by
      rw [hnegProj]
      exact List.mem_map_of_mem _ (List.mem_map_of_mem _ hneg)
    have h1 : final.2.2 ≤ -final.1 * norm - ((-slope) * p.x + 1 * p.y) := by
      rw [hupp]
      exact listMin_le hmem
    have h3 : (-slope) * p.x + 1 * p.y + (final.2.1 + final.2.2) / 2 ≤
        -(final.1 * norm) := by
      linarith
    have h4 := sq_le_sq_of_le_neg hmn h3
    linarith

/-- Witness for C7 at a concrete separable configuration (slope -3/4, so
the projection norm 5/4 is exact for ratSqrt): the search is feasible at
the first attempt and both points end outside the margin band. -/
theorem loan_margin_separation_witness :
    ((getDecisionBoundaryLineLoan ratOps [⟨4, 3, true⟩, ⟨0, 0, false⟩]
        [⟨4, 3, true⟩] [⟨0, 0, false⟩] 1).lower ≤
      (getDecisionBoundaryLineLoan ratOps [⟨4, 3, true⟩, ⟨0, 0, false⟩]
        [⟨4, 3, true⟩] [⟨0, 0, false⟩] 1).upper) ∧
    ¬ loanCrossesBand
      (getDecisionBoundaryLineLoan ratOps [⟨4, 3, true⟩, ⟨0, 0, false⟩]
        [⟨4, 3, true⟩] [⟨0, 0, false⟩] 1).slope
      (getDecisionBoundaryLineLoan ratOps [⟨4, 3, true⟩, ⟨0, 0, false⟩]
        [⟨4, 3, true⟩] [⟨0, 0, false⟩] 1).cChosen
      (getDecisionBoundaryLineLoan ratOps [⟨4, 3, true⟩, ⟨0, 0, false⟩]
        [⟨4, 3, true⟩] [⟨0, 0, false⟩] 1).margin ⟨4, 3, true⟩ :=
  ⟨of_decide_eq_true (by with_unfolding_all rfl),
    loan_margin_separation ratOps [⟨4, 3, true⟩, ⟨0, 0, false⟩]
      [⟨4, 3, true⟩] [⟨0, 0, false⟩] 1
      (of_decide_eq_true (by with_unfolding_all rfl))
      (of_decide_eq_true (by with_unfolding_all rfl))
      (of_decide_eq_true (by with_unfolding_all rfl))
      ⟨4, 3, true⟩ (Or.inl (by simp))⟩

/-- Counterexample to C7 as stated: on a 3-point input whose projections
overlap, every one of the 10 backoff attempts is infeasible, the line is
emitted anyway from the midpoint of the empty interval, and the positive
point (1, 0) lies strictly inside the final margin band — the construction
does not guarantee that no point crosses. -/
theorem loan_margin_separation_cex :
    loanCrossesBand
      (getDecisionBoundaryLineLoan ratOps
        [⟨1, 0, true⟩, ⟨3, 0, true⟩, ⟨1 / 2, 9 / 8, false⟩]
        [⟨1, 0, true⟩, ⟨3, 0, true⟩] [⟨1 / 2, 9 / 8, false⟩] 1).slope
      (getDecisionBoundaryLineLoan ratOps
        [⟨1, 0, true⟩, ⟨3, 0, true⟩, ⟨1 / 2, 9 / 8, false⟩]
        [⟨1, 0, true⟩, ⟨3, 0, true⟩] [⟨1 / 2, 9 / 8, false⟩] 1).cChosen
      (getDecisionBoundaryLineLoan ratOps
        [⟨1, 0, true⟩, ⟨3, 0, true⟩, ⟨1 / 2, 9 / 8, false⟩]
        [⟨1, 0, true⟩, ⟨3, 0, true⟩] [⟨1 / 2, 9 / 8, false⟩] 1).margin
      ⟨1, 0, true⟩ ∧
    ⟨1, 0, true⟩ ∈ [(⟨1, 0, true⟩ : DataPoint), ⟨3, 0, true⟩] :=
  ⟨of_decide_eq_true (by with_unfolding_all rfl), by simp⟩

/-! ### C4: validity of the support-vector index set -/

theorem map_idx_enum_gen {α σ : Type} (f : σ → ℕ) (g : ℕ × α → σ)
    (hg : ∀ ip, f (g ip) = ip.1) (l : List α) :
    ((l.enum.map g).map f) = List.range l.length := by
  rw [List.map_map]
  have hfg : (f ∘ g) = Prod.fst := funext fun ip => hg ip
  rw [hfg, List.enum_map_fst]

theorem sel_nodup_mem {σ : Type} (f : σ → ℕ) {l m : List σ} {n : ℕ}
    (hperm : (l.map f).Perm (List.range n)) (hsub : m.Sublist l) :
    (m.map f).Nodup ∧ ∀ i ∈ m.map f, i < n := by
  have hnd : (l.map f).Nodup := hperm.nodup_iff.mpr (List.nodup_range n)
  have hsubm : (m.map f).Sublist (l.map f) := hsub.map f
  refine ⟨List.Nodup.sublist hsubm hnd, ?_⟩
  intro i hi
  exact List.mem_range.mp (hperm.mem_iff.mp (hsubm.subset hi))

theorem percentile_select_valid {σ : Type} (f : σ → ℕ) (key : σ → ℚ)
    (records : List σ) (rel : σ → σ → Prop) [DecidableRel rel]
    (j k : ℕ) (d : σ) {n : ℕ}
    (hmap : records.map f = List.range n)
    (hj : j < n) (hk1 : 1 ≤ k) (hk : k ≤ 20) :
    (((((records.insertionSort rel).filter fun r =>
        key r ≤ key ((records.insertionSort rel).getD j d)).take k).map
        f).Nodup) ∧
    (∀ i ∈ ((((records.insertionSort rel).filter fun r =>
        key r ≤ key ((records.insertionSort rel).getD j d)).take k).map f),
        i < n) ∧
    1 ≤ ((((records.insertionSort rel).filter fun r =>
        key r ≤ key ((records.insertionSort rel).getD j d)).take k).map
        f).length ∧
    ((((records.insertionSort rel).filter fun r =>
        key r ≤ key ((records.insertionSort rel).getD j d)).take k).map
        f).length ≤ 20 := by
  set sorted := records.insertionSort rel with hsor
  have hperm : (sorted.map f).Perm (List.range n) := by
    rw [← hmap]
    exact (List.perm_insertionSort rel records).map f
  have hlen_sorted : sorted.length = n := by
    have h1 : (sorted.map f).length = (List.range n).length := hperm.length_eq
    rw [List.length_map, List.length_range] at h1
    exact h1
  have hsub : ((sorted.filter fun r =>
      key r ≤ key (sorted.getD j d)).take k).Sublist sorted :=
    (List.take_sublist _ _).trans (List.filter_sublist _)
  obtain ⟨hnd, hmemb⟩ := sel_nodup_mem f hperm hsub
  refine ⟨hnd, hmemb, ?_, ?_⟩
  · have hjlt : j < sorted.length := by
      rw [hlen_sorted]
      exact hj
    have he : sorted.getD j d ∈ sorted := by
      rw [List.getD_eq_getElem sorted d hjlt]
      exact List.getElem_mem hjlt
    have hef : sorted.getD j d ∈ sorted.filter fun r =>
        key r ≤ key (sorted.getD j d) :=
      List.mem_filter.mpr ⟨he, by simp⟩
    have hfl : 1 ≤ (sorted.filter fun r =>
        key r ≤ key (sorted.getD j d)).length :=
      List.length_pos_of_mem hef
    rw [List.length_map, List.length_take]
    exact le_min hk1 hfl
  · rw [List.length_map, List.length_take]
    exact le_trans (min_le_left _ _) hk

theorem threshold_select_valid {σ : Type} (f : σ → ℕ) (records : List σ)
    (rel : σ → σ → Prop) [DecidableRel rel] (p : σ → Bool)
    (k1 k2 : ℕ) {n : ℕ}
    (hmap : records.map f = List.range n)
    (hk1 : k1 ≤ 20) (hk2 : k2 ≤ 20) (hk2pos : 1 ≤ k2) (hn : 1 ≤ n) :
    ((if (((records.insertionSort rel).filter p).take k1).length < 8
      then (((records.insertionSort rel).take k2).map f)
      else ((((records.insertionSort rel).filter p).take k1).map f)).Nodup) ∧
    (∀ i ∈ (if (((records.insertionSort rel).filter p).take k1).length < 8
      then (((records.insertionSort rel).take k2).map f)
      else ((((records.insertionSort rel).filter p).take k1).map f)),
      i < n) ∧
    1 ≤ (if (((records.insertionSort rel).filter p).take k1).length < 8
      then (((records.insertionSort rel).take k2).map f)
      else ((((records.insertionSort rel).filter p).take k1).map f)).length ∧
    (if (((records.insertionSort rel).filter p).take k1).length < 8
      then (((records.insertionSort rel).take k2).map f)
      else ((((records.insertionSort rel).filter p).take k1).map f)).length ≤
      20 := by
  set sorted := records.insertionSort rel with hsor
  have hperm : (sorted.map f).Perm (List.range n) := by
    rw [← hmap]
    exact (List.perm_insertionSort rel records).map f
  have hlen_sorted : sorted.length = n := by
    have h1 : (sorted.map f).length = (List.range n).length := hperm.length_eq
    rw [List.length_map, List.length_range] at h1
    exact h1
  split
  · have hsub : (sorted.take k2).Sublist sorted := List.take_sublist _ _
    obtain ⟨hnd, hmemb⟩ := sel_nodup_mem f hperm hsub
    refine ⟨hnd, hmemb, ?_, ?_⟩
    · rw [List.length_map, List.length_take, hlen_sorted]
      exact le_min hk2pos hn
    · rw [List.length_map, List.length_take]
      exact le_trans (min_le_left _ _) hk2
  · rename_i hge
    have hsub : ((sorted.filter p).take k1).Sublist sorted :=
      (List.take_sublist _ _).trans (List.filter_sublist _)
    obtain ⟨hnd, hmemb⟩ := sel_nodup_mem f hperm hsub
    refine ⟨hnd, hmemb, ?_, ?_⟩
    · rw [List.length_map]
      omega
    · rw [List.length_map, List.length_take]
      exact le_trans (min_le_left _ _) hk1

theorem linearSVRecords_map_idx (ops : RealOps)
    (data positive negative : List DataPoint) :
    ((linearSVRecords ops data positive negative).map fun r => r.idx) =
      List.range data.length := by
  simp only [linearSVRecords]
  apply map_idx_enum_gen
  intro ip
  rfl

theorem polySVRecords_map_idx (ops : RealOps)
    (data positive negative : List DataPoint) (degree : ℕ) :
    ((polySVRecords ops data positive negative degree).map fun r => r.idx) =
      List.range data.length := by
  simp only [polySVRecords]
  apply map_idx_enum_gen
  intro ip
  rfl

theorem rbfSVRecords_map_idx (ops : RealOps)
    (data positive negative : List DataPoint) (C gamma : ℚ) :
    ((rbfSVRecords ops data positive negative C gamma).map fun r => r.idx) =
      List.range data.length := by
  simp only [rbfSVRecords]
  apply map_idx_enum_gen
  intro ip
  rfl

theorem sigmoidSVRecords_map_idx (ops : RealOps)
    (data positive negative : List DataPoint) (C gamma : ℚ) :
    ((sigmoidSVRecords ops data positive negative C gamma).map
      fun r => r.idx) = List.range data.length := by
  simp only [sigmoidSVRecords]
  apply map_idx_enum_gen
  intro ip
  rfl

theorem linearSVSelect_valid (ops : RealOps)
    (data positive negative : List DataPoint)
    (hp : positive ≠ []) (hn : negative ≠ [])
    (hgeo : (positive.map (fun p => p.x)).sum / (positive.length : ℚ) ≠
      (negative.map (fun p => p.x)).sum / (negative.length : ℚ))
    (h7 : 7 ≤ data.length) :
    (linearSVSelect ops data positive negative).Nodup ∧
    (∀ i ∈ linearSVSelect ops data positive negative, i < data.length) ∧
    1 ≤ (linearSVSelect ops data positive negative).length ∧
    (linearSVSelect ops data positive negative).length ≤ 20 := by
  have hguard : ¬ (positive = [] ∨ negative = [] ∨
      (positive.map (fun p => p.x)).sum / (positive.length : ℚ) =
        (negative.map (fun p => p.x)).sum / (negative.length : ℚ)) := by
    rintro (h | h | h)
    · exact hp h
    · exact hn h
    · exact hgeo h
  have hj : data.length * 25 / 100 < data.length := by
    rw [Nat.div_lt_iff_lt_mul (by norm_num)]
    omega
  have hk1 : 1 ≤ min 12 (data.length * 15 / 100) := by
    have : 1 ≤ data.length * 15 / 100 := by
      have : 105 ≤ data.length * 15 := by omega
      omega
    omega
  unfold linearSVSelect
  rw [if_neg hguard]
  exact percentile_select_valid (fun r => r.idx) (fun r => r.distance)
    (linearSVRecords ops data positive negative)
    (fun a b => a.distance ≤ b.distance)
    (data.length * 25 / 100) (min 12 (data.length * 15 / 100)) dfltSVRec
    (linearSVRecords_map_idx ops data positive negative) hj hk1 (by omega)

theorem polySVSelect_valid (ops : RealOps)
    (data positive negative : List DataPoint) (degree : ℕ)
    (hp : positive ≠ []) (hn : negative ≠ [])
    (hgeo1 : degree = 1 →
      (positive.map (fun p => p.x)).sum / (positive.length : ℚ) ≠
        (negative.map (fun p => p.x)).sum / (negative.length : ℚ))
    (hgeo2 : degree ≠ 1 →
      listMax (data.map fun d => d.x) - listMin (data.map fun d => d.x) ≠ 0)
    (h7 : 7 ≤ data.length) :
    (polySVSelect ops data positive negative degree).Nodup ∧
    (∀ i ∈ polySVSelect ops data positive negative degree,
      i < data.length) ∧
    1 ≤ (polySVSelect ops data positive negative degree).length ∧
    (polySVSelect ops data positive negative degree).length ≤ 20 := by
  have hguard : ¬ (positive = [] ∨ negative = [] ∨
      (degree = 1 ∧
        (positive.map (fun p => p.x)).sum / (positive.length : ℚ) =
          (negative.map (fun p => p.x)).sum / (negative.length : ℚ)) ∨
      (degree ≠ 1 ∧
        listMax (data.map fun d => d.x) - listMin (data.map fun d => d.x) =
          0)) := by
    rintro (h | h | ⟨hd, h⟩ | ⟨hd, h⟩)
    · exact hp h
    · exact hn h
    · exact hgeo1 hd h
    · exact hgeo2 hd h
  have hj : data.length * 20 / 100 < data.length := by
    rw [Nat.div_lt_iff_lt_mul (by norm_num)]
    omega
  have hk1 : 1 ≤ min 12 (data.length * 15 / 100) := by
    have : 1 ≤ data.length * 15 / 100 := by
      have : 105 ≤ data.length * 15 := by omega
      omega
    omega
  unfold polySVSelect
  rw [if_neg hguard]
  exact percentile_select_valid (fun r => r.idx) (fun r => r.distance)
    (polySVRecords ops data positive negative degree)
    (fun a b => a.distance ≤ b.distance)
    (data.length * 20 / 100) (min 12 (data.length * 15 / 100)) dfltSVRec
    (polySVRecords_map_idx ops data positive negative degree) hj hk1
    (by omega)

theorem rbfSVSelect_valid (ops : RealOps)
    (data positive negative : List DataPoint) (C gamma : ℚ)
    (h7 : 7 ≤ data.length) :
    (rbfSVSelect ops data positive negative C gamma).Nodup ∧
    (∀ i ∈ rbfSVSelect ops data positive negative C gamma,
      i < data.length) ∧
    1 ≤ (rbfSVSelect ops data positive negative C gamma).length ∧
    (rbfSVSelect ops data positive negative C gamma).length ≤ 20 := by
  have hk2pos : 1 ≤ min 20 (data.length * 30 / 100) := by
    have : 2 ≤ data.length * 30 / 100 := by
      have : 210 ≤ data.length * 30 := by omega
      omega
    omega
  exact threshold_select_valid (fun r => r.idx)
    (rbfSVRecords ops data positive negative C gamma)
    (fun a b => a.score ≤ b.score)
    (fun r => r.score ≤ max (3 / 10)
      (((rbfSVRecords ops data positive negative C gamma).insertionSort
        (fun a b => a.score ≤ b.score)).getD (min 10 (data.length - 1))
        dfltSVScoreRec).score)
    (min 20 (data.length * 25 / 100)) (min 20 (data.length * 30 / 100))
    (rbfSVRecords_map_idx ops data positive negative C gamma)
    (min_le_left _ _) (min_le_left _ _) hk2pos (by omega)

theorem sigmoidSVSelect_valid (ops : RealOps)
    (data positive negative : List DataPoint) (C gamma : ℚ)
    (h7 : 7 ≤ data.length) :
    (sigmoidSVSelect ops data positive negative C gamma).Nodup ∧
    (∀ i ∈ sigmoidSVSelect ops data positive negative C gamma,
      i < data.length) ∧
    1 ≤ (sigmoidSVSelect ops data positive negative C gamma).length ∧
    (sigmoidSVSelect ops data positive negative C gamma).length ≤ 20 := by
  have hk2pos : 1 ≤ min 20 (data.length * 30 / 100) := by
    have : 2 ≤ data.length * 30 / 100 := by
      have : 210 ≤ data.length * 30 := by omega
      omega
    omega
  exact threshold_select_valid (fun r => r.idx)
    (sigmoidSVRecords ops data positive negative C gamma)
    (fun a b => a.score ≤ b.score)
    (fun r => r.score ≤ max (3 / 10)
      (((sigmoidSVRecords ops data positive negative C gamma).insertionSort
        (fun a b => a.score ≤ b.score)).getD (min 10 (data.length - 1))
        dfltSVScoreRec).score)
    (min 20 (data.length * 25 / 100)) (min 20 (data.length * 30 / 100))
    (sigmoidSVRecords_map_idx ops data positive negative C gamma)
    (min_le_left _ _) (min_le_left _ _) hk2pos (by omega)

/-- C4 (amended): for every dataset with at least 7 points of mixed labels
(not 3 — with 3 to 6 points the linear and polynomial caps
min(12, floor(0.15·n)) can be 0 and the selection empty, see the
counterexample) whose selection geometry is nondegenerate for the chosen
kernel (for the linear and degree-1 polynomial branches the class x-means
differ, for the degree-2/3 polynomial branch the x-range is nonzero —
otherwise the source's NaN distances empty the selection even on large
datasets), the supportVectorIndices returned by train are in-range indices
with no duplicates, and the set size is between 1 and 20. -/
theorem support_vector_indices_valid (ops : RealOps) (data : List DataPoint)
    (C gamma : ℚ) (kernel : Kernel) (degree : ℕ)
    (hpos : positives data ≠ []) (hneg : negatives data ≠ [])
    (hgeo : svGeometryNondegenerate data (positives data) (negatives data)
      kernel degree)
    (hlen : 7 ≤ data.length) :
    (train ops data C gamma kernel degree).supportVectors.Nodup ∧
    (∀ i ∈ (train ops data C gamma kernel degree).supportVectors,
      i < data.length) ∧
    1 ≤ (train ops data C gamma kernel degree).supportVectors.length ∧
    (train ops data C gamma kernel degree).supportVectors.length ≤ 20 := by
  have htr : (train ops data C gamma kernel degree).supportVectors =
      findSupportVectors ops data (data.filter fun d => d.label)
        (data.filter fun d => !d.label) C gamma kernel degree := rfl
  rw [htr]
  cases kernel
  · exact linearSVSelect_valid ops data _ _ hpos hneg hgeo hlen
  · exact polySVSelect_valid ops data _ _ degree hpos hneg hgeo.1 hgeo.2 hlen
  · exact rbfSVSelect_valid ops data _ _ C gamma hlen
  · exact sigmoidSVSelect_valid ops data _ _ C gamma hlen

/-- Witness for C4 (amended) at a concrete 7-point mixed dataset with the
linear kernel; the class x-means (9/2 for the positives, 1 for the
negatives) differ, so the nondegeneracy hypothesis is exercised
nontrivially. -/
theorem support_vector_indices_valid_witness :
    (positives [(⟨0, 0, false⟩ : DataPoint), ⟨1, 0, false⟩, ⟨2, 0, false⟩,
        ⟨3, 1, true⟩, ⟨4, 1, true⟩, ⟨5, 1, true⟩, ⟨6, 2, true⟩] ≠ [] ∧
      negatives [(⟨0, 0, false⟩ : DataPoint), ⟨1, 0, false⟩, ⟨2, 0, false⟩,
        ⟨3, 1, true⟩, ⟨4, 1, true⟩, ⟨5, 1, true⟩, ⟨6, 2, true⟩] ≠ [] ∧
      svGeometryNondegenerate [⟨0, 0, false⟩, ⟨1, 0, false⟩, ⟨2, 0, false⟩,
        ⟨3, 1, true⟩, ⟨4, 1, true⟩, ⟨5, 1, true⟩, ⟨6, 2, true⟩]
        (positives [⟨0, 0, false⟩, ⟨1, 0, false⟩, ⟨2, 0, false⟩,
          ⟨3, 1, true⟩, ⟨4, 1, true⟩, ⟨5, 1, true⟩, ⟨6, 2, true⟩])
        (negatives [⟨0, 0, false⟩, ⟨1, 0, false⟩, ⟨2, 0, false⟩,
          ⟨3, 1, true⟩, ⟨4, 1, true⟩, ⟨5, 1, true⟩, ⟨6, 2, true⟩])
        Kernel.linear 2 ∧
      7 ≤ ([(⟨0, 0, false⟩ : DataPoint), ⟨1, 0, false⟩, ⟨2, 0, false⟩,
        ⟨3, 1, true⟩, ⟨4, 1, true⟩, ⟨5, 1, true⟩, ⟨6, 2, true⟩]).length) ∧
    (1 ≤ (train ratOps [⟨0, 0, false⟩, ⟨1, 0, false⟩, ⟨2, 0, false⟩,
        ⟨3, 1, true⟩, ⟨4, 1, true⟩, ⟨5, 1, true⟩, ⟨6, 2, true⟩] 1 (1 / 10)
        Kernel.linear 2).supportVectors.length ∧
      (train ratOps [⟨0, 0, false⟩, ⟨1, 0, false⟩, ⟨2, 0, false⟩,
        ⟨3, 1, true⟩, ⟨4, 1, true⟩, ⟨5, 1, true⟩, ⟨6, 2, true⟩] 1 (1 / 10)
        Kernel.linear 2).supportVectors.length ≤ 20) :=
  ⟨⟨by decide, by decide,
      of_decide_eq_true (by with_unfolding_all rfl), by decide⟩,
    (support_vector_indices_valid ratOps
      [⟨0, 0, false⟩, ⟨1, 0, false⟩, ⟨2, 0, false⟩, ⟨3, 1, true⟩,
        ⟨4, 1, true⟩, ⟨5, 1, true⟩, ⟨6, 2, true⟩] 1 (1 / 10) Kernel.linear 2
      (by decide) (by decide)
      (of_decide_eq_true (by with_unfolding_all rfl)) (by decide)).2.2⟩

/-- Counterexample to C4 as stated: a 3-point mixed-label dataset with the
linear kernel yields an empty support-vector set (the cap
min(12, floor(0.15·3)) is 0), contradicting the claimed minimum size of
1. -/
theorem support_vector_indices_cex :
    positives [(⟨0, 0, false⟩ : DataPoint), ⟨1, 0, false⟩, ⟨2, 1, true⟩] ≠
      [] ∧
    negatives [(⟨0, 0, false⟩ : DataPoint), ⟨1, 0, false⟩, ⟨2, 1, true⟩] ≠
      [] ∧
    ([(⟨0, 0, false⟩ : DataPoint), ⟨1, 0, false⟩, ⟨2, 1, true⟩]).length =
      3 ∧
    (train ratOps [⟨0, 0, false⟩, ⟨1, 0, false⟩, ⟨2, 1, true⟩] 1 (1 / 10)
      Kernel.linear 2).supportVectors = [] :=
  ⟨by decide, by decide, by decide,
    of_decide_eq_true (by with_unfolding_all rfl)⟩

end SVMPlay
